import Mathlib

/-! LumosLiDARViewer: the connection manager of `CComm.h`.

A shallow embedding of the abstract class `Comm` and of its three derived
classes `TCPComm`, `UDPComm` and `SerialComm`.  The point buffer of
`CCloudPoints.h` follows, with its `float` arithmetic as a parameter.

Modelling conventions.

* A `Comm` object is a record of its data members.  The members of the derived
  class (socket, host address, port) are the field `dev`.
* The pure virtual `...Proc` members are a record `Transport` of functions on
  `dev`.  A proc receives what the derived classes of the source read from the
  base object and returns what they write to it (the byte counters).
* The Qt socket and serial port classes are not part of the repository: their
  member functions are parameters (`QSocketApi`, `QSerialApi`).
* `emit` appends to the field `emitted`; `calls` is a ghost trace of the
  virtual calls made by the base class.
* `QtConcurrent::run` in `setStatus` hands a task to a pool thread.  The
  embedding runs that task at the point of the call and delivers its queued
  notification at once: the behaviour of one operation run to quiescence, with
  no other operation interleaved.  The worker of an asynchronous `send`,
  `recv` or `inbox` is kept as a pending job in the field `worker`;
  `workerCanceled` records that `worker.cancel()` was called on it.
* Events of the environment (socket signals, timers, `processEvents`) are not
  interleaved with the body of an operation.
* The namespace `Ev` embeds the same members at the level of events, for the
  properties that depend on them.  There `setStatus` only starts the pool
  task (`poolTasks`); the task runs as an event of its own (`Ev.poolRun`: it
  assigns `m_status` and posts the `ready` notification to `queued`), and
  `processEvents` delivers what is queued.  A socket call can be interrupted
  by the `disconnected` signal, which runs `handleLostConn`; the pending
  worker runs as an event (`Ev.runJob`); the device can change between calls
  (`Ev.Step.world`).  What `processEvents` dispatches besides queued
  notifications is taken as an event between operations.
-/

namespace LumoComm

/-- The `Comm::eStatus` enumeration. -/
inductive eStatus where
  | closed
  | connecting
  | connected
  | ready
  | sending
  | sent
  | recving
  | recved
  | closing
  | onError
  | connLost
  | connFailed
  | disconnFailed
  | sendFailed
  | recvFailed
  deriving DecidableEq, Repr

/-- The underlying `unsigned int` value of an enumerator. -/
def eStatus.toNat : eStatus → Nat
  | .closed => 0
  | .connecting => 1
  | .connected => 2
  | .ready => 3
  | .sending => 4
  | .sent => 5
  | .recving => 6
  | .recved => 7
  | .closing => 8
  | .onError => 1000
  | .connLost => 1001
  | .connFailed => 1002
  | .disconnFailed => 1003
  | .sendFailed => 1004
  | .recvFailed => 1005

/-- The `Comm::eProgress` enumeration. -/
inductive eProgress where
  | sending
  | inbox
  | recving
  deriving DecidableEq, Repr

/-- A `QByteArray`: a sequence of byte values. -/
abbrev QByteArray := List Nat

/-- The three Qt signals of `Comm`. -/
inductive Signal where
  | onStatus (status : eStatus)
  | onProgress (progress : eProgress) (bytes : Nat)
  | onAlert (alertCode : Int) (msg : String)
  deriving DecidableEq, Repr

/-- The virtual members of `Comm`, as entries of the ghost call trace. -/
inductive ProcCall where
  | setConnInfoProc
  | connectProc
  | closeProc
  | sendProc
  | inboxProc
  | recvProc
  | checkConnProc
  deriving DecidableEq, Repr

/-- The operation a `worker` future is carrying: the queued invocation of one
of the `do...Proc` members. -/
inductive Job where
  | doSendProc (data : QByteArray) (timeout : Nat)
  | doInboxProc (timeout : Nat)
  | doRecvProc (timeout : Nat)
  deriving DecidableEq, Repr

/-- The macro `INFINITE`. -/
def INFINITE : Nat := 0xFFFFFFFF

/-- The macro `IGNORE`. -/
def IGNORE : Nat := 0

/-- Conversion of a 64-bit result to `int`, as in `m_bytesSent = socket->write(data)`. -/
def toInt32 (k : Int) : Int :=
  (k + 2 ^ 31) % 2 ^ 32 - 2 ^ 31

/-- Conversion of a `quint32` count to the `quint32` argument of `onProgress`
from the `int` counter `m_bytesInbox`. -/
def toUInt32 (k : Int) : Nat :=
  (k % 2 ^ 32).toNat

/-- The data members of a `Comm` object; `dev` holds those of the derived class. -/
structure Comm (τ : Type) where
  m_commID : Int := 0
  m_connInfo : Nat := 0
  m_connString : String := ""
  m_connNum : Int := 0
  m_connAvailable : Bool := false
  m_status : eStatus := eStatus.closed
  m_isClosed : Bool := true
  m_isConnected : Bool := false
  m_bytesSent : Int := 0
  m_bytesRecv : Int := 0
  m_bytesInbox : Int := 0
  connWatchdog : Option Int := none
  progTimeout : Option Nat := none
  worker : Option Job := none
  workerCanceled : Bool := false
  queued : List Signal := []
  poolTasks : Nat := 0
  m_timeout : Nat := INFINITE
  m_enableConnTimeout : Bool := false
  m_enableSendTimeout : Bool := false
  m_enableRecvTimeout : Bool := false
  dev : τ
  emitted : List Signal := []
  calls : List ProcCall := []

/-- The pure virtual members of `Comm`.  `connectProc` reads `m_connAvailable`
of the base object; `sendProc`, `inboxProc` and `recvProc` return, next to
their result, the value they store in `m_bytesSent`, `m_bytesInbox` and
`m_bytesRecv`; `recvProc` also returns the new content of the buffer.  The
`disconnected` signal a socket emits during a call, which runs
`handleLostConn`, is added around the procs in the namespace `Ev`. -/
structure Transport (τ : Type) where
  setConnInfoProc : τ → String → Int → Nat → Bool × τ
  connectProc : Bool → τ → Nat → Bool × τ
  closeProc : τ → Nat → Bool × τ
  sendProc : τ → QByteArray → Nat → (Bool × Int) × τ
  inboxProc : τ → Nat → (Bool × Int) × τ
  recvProc : τ → Nat → (Bool × QByteArray × Int) × τ
  checkConnProc : τ → Bool

namespace Comm

variable {τ : Type}

/-- The constructor `Comm::Comm`: status `closed`, every member at its
in-class initialiser. -/
def new (dev : τ) (commID : Int) : Comm τ :=
  { dev := dev, m_commID := commID, m_status := eStatus.closed }

/-- A signal emission (`emit`). -/
def emit (c : Comm τ) (s : Signal) : Comm τ :=
  { c with emitted := c.emitted ++ [s] }

/-- Ghost: records a virtual call of the base class. -/
def logCall (c : Comm τ) (p : ProcCall) : Comm τ :=
  { c with calls := c.calls ++ [p] }

/-- Member `Comm::setStatus`. -/
def setStatus (c : Comm τ) (status : eStatus) : Comm τ :=
  if c.m_status = status then c
  else
    let c1 := { c with m_status := status }
    let c2 := c1.emit (Signal.onStatus status)
    match c2.m_status with
    | eStatus.connected | eStatus.sent | eStatus.recved =>
      let c3 := { c2 with m_status := eStatus.ready }
      c3.emit (Signal.onStatus eStatus.ready)
    | _ => c2

/-- The macro `comm_noErr`. -/
def comm_noErr (c : Comm τ) : Bool :=
  decide (c.m_status.toNat < eStatus.onError.toNat)

/-- The macro `comm_onErr`. -/
def comm_onErr (c : Comm τ) : Bool :=
  decide (c.m_status.toNat ≥ eStatus.onError.toNat)

/-- The macro `comm_home`. -/
def comm_home (c : Comm τ) : Bool :=
  c.m_status == eStatus.closed || c.m_status == eStatus.closing

/-- The macro `comm_idle`. -/
def comm_idle (c : Comm τ) : Bool :=
  c.m_status == eStatus.ready

/-- The macro `comm_busy`. -/
def comm_busy (c : Comm τ) : Bool :=
  c.m_status == eStatus.sending || c.m_status == eStatus.recving

/-- The macro `comm_done`. -/
def comm_done (c : Comm τ) : Bool :=
  c.m_status == eStatus.sent || c.m_status == eStatus.recved

/-- Virtual call `setConnInfoProc(connString, connNum, connInfo)`. -/
def callSetConnInfoProc (T : Transport τ) (c : Comm τ) (connString : String) (connNum : Int)
    (connInfo : Nat) : Bool × Comm τ :=
  let c1 := c.logCall ProcCall.setConnInfoProc
  let r := T.setConnInfoProc c1.dev connString connNum connInfo
  (r.1, { c1 with dev := r.2 })

/-- Virtual call `connectProc(timeout)`. -/
def callConnectProc (T : Transport τ) (c : Comm τ) (timeout : Nat) : Bool × Comm τ :=
  let c1 := c.logCall ProcCall.connectProc
  let r := T.connectProc c1.m_connAvailable c1.dev timeout
  (r.1, { c1 with dev := r.2 })

/-- Virtual call `closeProc(timeout)`. -/
def callCloseProc (T : Transport τ) (c : Comm τ) (timeout : Nat) : Bool × Comm τ :=
  let c1 := c.logCall ProcCall.closeProc
  let r := T.closeProc c1.dev timeout
  (r.1, { c1 with dev := r.2 })

/-- Virtual call `sendProc(data, timeout)`. -/
def callSendProc (T : Transport τ) (c : Comm τ) (data : QByteArray) (timeout : Nat) :
    Bool × Comm τ :=
  let c1 := c.logCall ProcCall.sendProc
  let r := T.sendProc c1.dev data timeout
  (r.1.1, { c1 with dev := r.2, m_bytesSent := r.1.2 })

/-- Virtual call `inboxProc(timeout)`. -/
def callInboxProc (T : Transport τ) (c : Comm τ) (timeout : Nat) : Bool × Comm τ :=
  let c1 := c.logCall ProcCall.inboxProc
  let r := T.inboxProc c1.dev timeout
  (r.1.1, { c1 with dev := r.2, m_bytesInbox := r.1.2 })

/-- Virtual call `recvProc(buffer, timeout)`; the second component is the
buffer after the call. -/
def callRecvProc (T : Transport τ) (c : Comm τ) (timeout : Nat) :
    Bool × QByteArray × Comm τ :=
  let c1 := c.logCall ProcCall.recvProc
  let r := T.recvProc c1.dev timeout
  (r.1.1, r.1.2.1, { c1 with dev := r.2, m_bytesRecv := r.1.2.2 })

/-- Virtual call `checkConnProc()`, a `const` member. -/
def callCheckConnProc (T : Transport τ) (c : Comm τ) : Bool × Comm τ :=
  let c1 := c.logCall ProcCall.checkConnProc
  (T.checkConnProc c1.dev, c1)

/-- The test `enable && timeout && timeout < INFINITE` on a `quint32` timeout. -/
def timed (enable : Bool) (timeout : Nat) : Bool :=
  enable && timeout != 0 && decide (timeout < INFINITE)

/-- Member `Comm::runINTime`.  `fired` tells whether `futureTimer` cancelled the
future before `func` finished. -/
def runINTime {α : Type} (enableTimeout : Bool) (timeout : Nat) (fired : Bool)
    (func : α → Bool × α) (s : α) : Bool × α :=
  if timed enableTimeout timeout then
    let r := func s
    (!fired && r.1, r.2)
  else
    func s

/-- Member `Comm::setConnInfo`. -/
def setConnInfo (T : Transport τ) (c : Comm τ) (connString : String) (connNum : Int)
    (connInfo : Nat) : Bool × Comm τ :=
  let c1 := { c with m_connInfo := connInfo }
  let c2 := { c1 with m_connString := connString }
  let c3 := { c2 with m_connNum := connNum }
  let r := callSetConnInfoProc T c3 c3.m_connString c3.m_connNum c3.m_connInfo
  let c4 := { r.2 with m_connAvailable := r.1 }
  (c4.m_connAvailable, c4)

/-- Member `Comm::connect`. -/
def connect (T : Transport τ) (c : Comm τ) (timeout : Nat) (fired : Bool) : Bool × Comm τ :=
  if !c.m_connAvailable then (false, c)
  else
    let c1 := { c with m_isClosed := false }
    let c2 := c1.setStatus eStatus.connecting
    let r := runINTime c2.m_enableConnTimeout timeout fired
      (fun s => callConnectProc T s timeout) c2
    let c3 := { r.2 with m_isConnected := r.1 }
    let c4 := if c3.m_isConnected then c3.setStatus eStatus.connected
      else c3.setStatus eStatus.connFailed
    (c4.m_isConnected, c4)

/-- Member `Comm::close`. -/
def close (T : Transport τ) (c : Comm τ) (timeout : Nat) : Bool × Comm τ :=
  let c1 := { c with m_isClosed := true }
  let live := callCheckConnProc T c1
  if !live.1 then (true, live.2)
  else
    let c2 := live.2.setStatus eStatus.closing
    let r := callCloseProc T c2 timeout
    let c3 := { r.2 with m_isConnected := !r.1 }
    let c4 := if !c3.m_isConnected then c3.setStatus eStatus.closed
      else c3.setStatus eStatus.disconnFailed
    (c4.m_isConnected, c4)

/-- Member `Comm::doSendProc`. -/
def doSendProc (T : Transport τ) (c : Comm τ) (data : QByteArray) (timeout : Nat) :
    Bool × Comm τ :=
  let c1 := { c with m_bytesSent := 0 }
  let c2 := c1.setStatus eStatus.sending
  let r :=
    if timed c2.m_enableSendTimeout timeout then
      let c3 := { c2 with progTimeout := some timeout }
      let r := callSendProc T c3 data timeout
      (r.1, { r.2 with progTimeout := none })
    else
      callSendProc T c2 data timeout
  let c4 := if r.1 then r.2.setStatus eStatus.sent else r.2.setStatus eStatus.sendFailed
  (r.1, c4)

/-- Member `Comm::send`.  The asynchronous branch stores the worker and leaves
the function without a `return` statement: the result is `none`. -/
def send (T : Transport τ) (c : Comm τ) (data : QByteArray) (timeout : Nat) (async : Bool) :
    Option Bool × Comm τ :=
  if !c.comm_idle then (some false, c)
  else if async then
    (none, { c with worker := some (Job.doSendProc data timeout), workerCanceled := false })
  else
    let r := doSendProc T c data timeout
    (some r.1, r.2)

/-- Member `Comm::doInboxProc`. -/
def doInboxProc (T : Transport τ) (c : Comm τ) (timeout : Nat) : Bool × Comm τ :=
  let c1 := { c with m_bytesInbox := 0 }
  let r :=
    if timed c1.m_enableRecvTimeout timeout then
      let c2 := { c1 with progTimeout := some timeout }
      let r := callInboxProc T c2 timeout
      (r.1, { r.2 with progTimeout := none })
    else
      callInboxProc T c1 timeout
  let c3 := if r.1 then r.2.emit (Signal.onProgress eProgress.inbox (toUInt32 r.2.m_bytesInbox))
    else r.2
  (r.1, c3)

/-- Member `Comm::inbox`. -/
def inbox (T : Transport τ) (c : Comm τ) (timeout : Nat) (async : Bool) : Bool × Comm τ :=
  if !c.comm_idle then (false, c)
  else if async then
    (true, { c with worker := some (Job.doInboxProc timeout), workerCanceled := false })
  else
    doInboxProc T c timeout

/-- Member `Comm::doRecvProc`; the second component is the caller's buffer after the call. -/
def doRecvProc (T : Transport τ) (c : Comm τ) (timeout : Nat) : Bool × QByteArray × Comm τ :=
  let c1 := { c with m_bytesRecv := 0 }
  let c2 := c1.setStatus eStatus.recving
  let r :=
    if timed c2.m_enableRecvTimeout timeout then
      let c3 := { c2 with progTimeout := some timeout }
      let r := callRecvProc T c3 timeout
      (r.1, r.2.1, { r.2.2 with progTimeout := none })
    else
      callRecvProc T c2 timeout
  let c4 := if r.1 then r.2.2.setStatus eStatus.recved else r.2.2.setStatus eStatus.recvFailed
  (r.1, r.2.1, c4)

/-- Member `Comm::recv`; the second component is the caller's buffer after the call. -/
def recv (T : Transport τ) (c : Comm τ) (buffer : QByteArray) (timeout : Nat) (async : Bool) :
    Bool × QByteArray × Comm τ :=
  if !c.comm_idle then (false, buffer, c)
  else if async then
    (true, buffer, { c with worker := some (Job.doRecvProc timeout), workerCanceled := false })
  else
    doRecvProc T c timeout

/-- Member `Comm::checkConn`.  The locker of the non-emergency path is a temporary
that is released at once, so `emergency` has no further effect. -/
def checkConn (T : Transport τ) (c : Comm τ) (_emergency : Bool) : Bool × Comm τ :=
  if c.m_isClosed then
    (false, { c with m_isConnected := false })
  else
    let live := callCheckConnProc T c
    let c1 := live.2
    let c2 :=
      if live.1 then
        if !c1.m_isConnected then
          ({ c1 with m_isConnected := true }).setStatus eStatus.connected
        else c1
      else
        if c1.m_isConnected then
          ({ c1 with m_isConnected := false }).setStatus eStatus.connLost
        else c1
    (c2.m_isConnected, c2)

/-- Member `Comm::reconnect`. -/
def reconnect (T : Transport τ) (c : Comm τ) : Bool × Comm τ :=
  let live := callCheckConnProc T c
  let c1 := if live.1 then (callCloseProc T live.2 INFINITE).2 else live.2
  let c2 := (callConnectProc T c1 INFINITE).2
  checkConn T c2 false

/-- Member `Comm::setTimeout`. -/
def setTimeout (c : Comm τ) (checkConnAlive : Bool) (interval : Int)
    (connTimeout sendTimeout recvTimeout : Bool) : Comm τ :=
  let c1 := if checkConnAlive then { c with connWatchdog := some interval }
    else { c with connWatchdog := none }
  { c1 with m_enableConnTimeout := connTimeout, m_enableSendTimeout := sendTimeout,
            m_enableRecvTimeout := recvTimeout }

/-- The handler connected to `progTimeout` in the constructor `Comm::Comm`;
`worker.isRunning()` is the presence of a pending job. -/
def progTimeoutHandler (c : Comm τ) : Comm τ :=
  if c.worker.isSome then
    let c1 := { c with workerCanceled := true }
    if c1.m_status = eStatus.sending then c1.setStatus eStatus.sendFailed
    else if c1.m_status = eStatus.recving then c1.setStatus eStatus.recvFailed
    else if c1.m_status = eStatus.connecting then c1.setStatus eStatus.connFailed
    else if c1.m_status = eStatus.ready then
      c1.emit (Signal.onProgress eProgress.inbox (toUInt32 c1.m_bytesInbox))
    else c1
  else c

/-- Member `Comm::isConnected`. -/
def isConnected (c : Comm τ) : Bool := c.m_isConnected

/-- Member `Comm::isOnError`. -/
def isOnError (c : Comm τ) : Bool := c.comm_onErr

/-- Member `Comm::isIdle`. -/
def isIdle (c : Comm τ) : Bool := c.comm_idle

/-- Member `Comm::isAtHome`. -/
def isAtHome (c : Comm τ) : Bool := c.comm_home

/-- Member `Comm::isBusy`. -/
def isBusy (c : Comm τ) : Bool := c.comm_busy

/-- Member `Comm::isDone`. -/
def isDone (c : Comm τ) : Bool := c.comm_done

/-- Member `Comm::getStatus`. -/
def getStatus (c : Comm τ) : eStatus := c.m_status

/-- The status notifications among the emitted signals, in order. -/
def statusTrace (c : Comm τ) : List eStatus :=
  c.emitted.filterMap fun s =>
    match s with
    | Signal.onStatus st => some st
    | _ => none

end Comm

/-- The enumeration `QAbstractSocket::SocketState`. -/
inductive SocketState where
  | UnconnectedState
  | HostLookupState
  | ConnectingState
  | ConnectedState
  | BoundState
  | ListeningState
  | ClosingState
  deriving DecidableEq, Repr

/-- A `QHostAddress` value: default constructed, the wildcard
`QHostAddress::AnyIPv4`, or what `setAddress(s)` leaves for the string `s`. -/
inductive QHostAddress where
  | null
  | anyIPv4
  | ofString (s : String)
  deriving DecidableEq, Repr

/-- The member functions of `QTcpSocket` and `QUdpSocket` which the source
calls, on a socket of type `σ`.  A timeout is the `quint32` value handed over. -/
structure QSocketApi (σ : Type) where
  state : σ → SocketState
  connectToHost : σ → QHostAddress → Nat → σ
  waitForConnected : σ → Nat → σ
  disconnectFromHost : σ → σ
  waitForDisconnected : σ → Nat → σ
  bind : σ → QHostAddress → Nat → Bool × σ
  write : σ → QByteArray → Int × σ
  writeDatagram : σ → QByteArray → QHostAddress → Nat → Int × σ
  waitForBytesWritten : σ → Nat → σ
  waitForReadyRead : σ → Nat → σ
  bytesAvailable : σ → Int
  readAll : σ → QByteArray × σ

/-- The member functions of `QSerialPort` which the source calls. -/
structure QSerialApi (σ : Type) where
  setPortName : σ → String → σ
  setBaudRate : σ → Int → σ
  isOpen : σ → Bool
  open_ : σ → Bool × σ
  close : σ → σ
  write : σ → QByteArray → Int × σ
  waitForBytesWritten : σ → Nat → σ
  waitForReadyRead : σ → Nat → σ
  bytesAvailable : σ → Int
  readAll : σ → QByteArray × σ

/-- The value of `connString.count(c)`: occurrences of a character. -/
def countChar (connString : String) (c : Char) : Nat :=
  connString.toList.count c

/-- The cast `(quint16)connNum`. -/
def toUInt16 (connNum : Int) : Nat :=
  (connNum % 65536).toNat

/-- The data members of a `TCPComm` or `UDPComm` object.  `noReturn` is the
indeterminate value `UDPComm::connectProc` yields when it reaches its end
without a `return` statement. -/
structure SockDev (σ : Type) where
  socket : σ
  m_port : Nat
  hostAddr : QHostAddress
  noReturn : Bool

namespace TCPComm

variable {σ : Type}

/-- Member `TCPComm::checkConnProc`. -/
def checkConnProc (Q : QSocketApi σ) (d : SockDev σ) : Bool :=
  Q.state d.socket == SocketState.ConnectedState

/-- Member `TCPComm::setConnInfoProc`. -/
def setConnInfoProc (d : SockDev σ) (connString : String) (connNum : Int) (_connInfo : Nat) :
    Bool × SockDev σ :=
  let isOK := decide (countChar connString '.' ≥ 3) &&
    (decide (connNum > 0) && decide (connNum ≤ 65535))
  if !isOK then (false, d)
  else
    let d1 := { d with hostAddr := QHostAddress.ofString connString }
    let d2 := { d1 with m_port := toUInt16 connNum }
    (true, d2)

/-- Member `TCPComm::connectProc`. -/
def connectProc (Q : QSocketApi σ) (m_connAvailable : Bool) (d : SockDev σ) (timeout : Nat) :
    Bool × SockDev σ :=
  if !m_connAvailable then (false, d)
  else if checkConnProc Q d then (true, d)
  else
    let s1 := Q.connectToHost d.socket d.hostAddr d.m_port
    let s2 := if timeout != 0 then Q.waitForConnected s1 timeout else s1
    let d1 := { d with socket := s2 }
    (checkConnProc Q d1, d1)

/-- Member `TCPComm::closeProc`. -/
def closeProc (Q : QSocketApi σ) (d : SockDev σ) (timeout : Nat) : Bool × SockDev σ :=
  if Q.state d.socket == SocketState.UnconnectedState then (true, d)
  else
    let s1 := Q.disconnectFromHost d.socket
    let s2 := if timeout != 0 then Q.waitForDisconnected s1 timeout else s1
    (Q.state s2 == SocketState.UnconnectedState, { d with socket := s2 })

/-- Member `TCPComm::sendProc`. -/
def sendProc (Q : QSocketApi σ) (d : SockDev σ) (data : QByteArray) (timeout : Nat) :
    (Bool × Int) × SockDev σ :=
  let w := Q.write d.socket data
  let m_bytesSent := toInt32 w.1
  let s2 := if timeout != 0 then Q.waitForBytesWritten w.2 timeout else w.2
  ((decide (m_bytesSent = (data.length : Int)), m_bytesSent), { d with socket := s2 })

/-- Member `TCPComm::inboxProc`. -/
def inboxProc (Q : QSocketApi σ) (d : SockDev σ) (timeout : Nat) : (Bool × Int) × SockDev σ :=
  let s1 := if timeout != 0 then Q.waitForReadyRead d.socket timeout else d.socket
  let m_bytesInbox := toInt32 (Q.bytesAvailable s1)
  ((decide (m_bytesInbox > 0), m_bytesInbox), { d with socket := s1 })

/-- Member `TCPComm::recvProc`. -/
def recvProc (Q : QSocketApi σ) (d : SockDev σ) (timeout : Nat) :
    (Bool × QByteArray × Int) × SockDev σ :=
  let recvBytes := toInt32 (Q.bytesAvailable d.socket)
  let s1 := if timeout != 0 && recvBytes == 0 then Q.waitForReadyRead d.socket timeout
    else d.socket
  let rd := Q.readAll s1
  let m_bytesRecv := toInt32 (rd.1.length : Int)
  ((decide (m_bytesRecv ≠ 0), rd.1, m_bytesRecv), { d with socket := rd.2 })

/-- The class `TCPComm` as an implementation of the virtual members. -/
def transport (Q : QSocketApi σ) : Transport (SockDev σ) where
  setConnInfoProc := setConnInfoProc
  connectProc := connectProc Q
  closeProc := closeProc Q
  sendProc := sendProc Q
  inboxProc := inboxProc Q
  recvProc := recvProc Q
  checkConnProc := checkConnProc Q

end TCPComm

namespace UDPComm

variable {σ : Type}

/-- Member `UDPComm::checkConnProc`. -/
def checkConnProc (Q : QSocketApi σ) (d : SockDev σ) : Bool :=
  let curStat := Q.state d.socket
  curStat == SocketState.ConnectedState

/-- Member `UDPComm::setConnInfoProc`. -/
def setConnInfoProc (d : SockDev σ) (connString : String) (connNum : Int) (_connInfo : Nat) :
    Bool × SockDev σ :=
  let isOK := decide (connNum > 0) && decide (connNum ≤ 65535)
  if !isOK then (false, d)
  else
    let d1 :=
      if countChar connString '.' ≠ 3 then { d with hostAddr := QHostAddress.anyIPv4 }
      else { d with hostAddr := QHostAddress.ofString connString }
    let d2 := { d1 with m_port := toUInt16 connNum }
    (true, d2)

/-- Member `UDPComm::connectProc`.  When `bind` fails the function ends without
a `return` statement. -/
def connectProc (Q : QSocketApi σ) (m_connAvailable : Bool) (d : SockDev σ) (timeout : Nat) :
    Bool × SockDev σ :=
  if !m_connAvailable then (false, d)
  else if checkConnProc Q d then (true, d)
  else
    let b := Q.bind d.socket d.hostAddr d.m_port
    let isOK := b.1
    if isOK then
      let s1 := Q.connectToHost b.2 d.hostAddr d.m_port
      let s2 := if timeout != 0 then Q.waitForConnected s1 timeout else s1
      let d1 := { d with socket := s2 }
      (checkConnProc Q d1, d1)
    else
      (d.noReturn, { d with socket := b.2 })

/-- Member `UDPComm::closeProc`. -/
def closeProc (Q : QSocketApi σ) (d : SockDev σ) (timeout : Nat) : Bool × SockDev σ :=
  if Q.state d.socket == SocketState.UnconnectedState then (true, d)
  else
    let s1 := Q.disconnectFromHost d.socket
    let s2 := if timeout != 0 then Q.waitForDisconnected s1 timeout else s1
    (Q.state s2 == SocketState.UnconnectedState, { d with socket := s2 })

/-- Member `UDPComm::sendProc`. -/
def sendProc (Q : QSocketApi σ) (d : SockDev σ) (data : QByteArray) (timeout : Nat) :
    (Bool × Int) × SockDev σ :=
  let w := Q.writeDatagram d.socket data d.hostAddr d.m_port
  let m_bytesSent := toInt32 w.1
  let s2 := if timeout != 0 then Q.waitForBytesWritten w.2 timeout else w.2
  ((decide (m_bytesSent = (data.length : Int)), m_bytesSent), { d with socket := s2 })

/-- Member `UDPComm::inboxProc`. -/
def inboxProc (Q : QSocketApi σ) (d : SockDev σ) (timeout : Nat) : (Bool × Int) × SockDev σ :=
  let s1 := if timeout != 0 then Q.waitForReadyRead d.socket timeout else d.socket
  let m_bytesInbox := toInt32 (Q.bytesAvailable s1)
  ((decide (m_bytesInbox > 0), m_bytesInbox), { d with socket := s1 })

/-- Member `UDPComm::recvProc`. -/
def recvProc (Q : QSocketApi σ) (d : SockDev σ) (timeout : Nat) :
    (Bool × QByteArray × Int) × SockDev σ :=
  let recvBytes := toInt32 (Q.bytesAvailable d.socket)
  let s1 := if timeout != 0 && recvBytes == 0 then Q.waitForReadyRead d.socket timeout
    else d.socket
  let rd := Q.readAll s1
  let m_bytesRecv := toInt32 (rd.1.length : Int)
  ((decide (m_bytesRecv ≠ 0), rd.1, m_bytesRecv), { d with socket := rd.2 })

/-- The class `UDPComm` as an implementation of the virtual members. -/
def transport (Q : QSocketApi σ) : Transport (SockDev σ) where
  setConnInfoProc := setConnInfoProc
  connectProc := connectProc Q
  closeProc := closeProc Q
  sendProc := sendProc Q
  inboxProc := inboxProc Q
  recvProc := recvProc Q
  checkConnProc := checkConnProc Q

end UDPComm

/-- The data members of a `SerialComm` object; `m_connAvailable` is the private
member of `SerialComm` which hides the one of `Comm`. -/
structure SerialDev (σ : Type) where
  serial : σ
  m_connAvailable : Bool

namespace SerialComm

variable {σ : Type}

/-- Member `SerialComm::checkConnProc`. -/
def checkConnProc (Q : QSerialApi σ) (d : SerialDev σ) : Bool :=
  Q.isOpen d.serial

/-- Member `SerialComm::setConnInfoProc`. -/
def setConnInfoProc (Q : QSerialApi σ) (d : SerialDev σ) (connString : String) (connNum : Int)
    (_connInfo : Nat) : Bool × SerialDev σ :=
  let d1 := { d with m_connAvailable := false }
  let d2 := { d1 with serial := Q.setPortName d1.serial connString }
  let d3 := { d2 with serial := Q.setBaudRate d2.serial connNum }
  let d4 := { d3 with m_connAvailable := true }
  (d4.m_connAvailable, d4)

/-- Member `SerialComm::connectProc`. -/
def connectProc (Q : QSerialApi σ) (_baseConnAvailable : Bool) (d : SerialDev σ)
    (_timeout : Nat) : Bool × SerialDev σ :=
  if !d.m_connAvailable then (false, d)
  else if Q.isOpen d.serial then (true, d)
  else
    let o := Q.open_ d.serial
    (o.1, { d with serial := o.2 })

/-- Member `SerialComm::closeProc`. -/
def closeProc (Q : QSerialApi σ) (d : SerialDev σ) (_timeout : Nat) : Bool × SerialDev σ :=
  let d1 := if Q.isOpen d.serial then { d with serial := Q.close d.serial } else d
  (!Q.isOpen d1.serial, d1)

/-- Member `SerialComm::sendProc`. -/
def sendProc (Q : QSerialApi σ) (d : SerialDev σ) (data : QByteArray) (timeout : Nat) :
    (Bool × Int) × SerialDev σ :=
  let w := Q.write d.serial data
  let m_bytesSent := toInt32 w.1
  let s2 := if timeout != 0 then Q.waitForBytesWritten w.2 timeout else w.2
  ((decide (m_bytesSent = (data.length : Int)), m_bytesSent), { d with serial := s2 })

/-- Member `SerialComm::inboxProc`. -/
def inboxProc (Q : QSerialApi σ) (d : SerialDev σ) (timeout : Nat) :
    (Bool × Int) × SerialDev σ :=
  let s1 := if timeout != 0 then Q.waitForReadyRead d.serial timeout else d.serial
  let m_bytesInbox := toInt32 (Q.bytesAvailable s1)
  ((decide (m_bytesInbox > 0), m_bytesInbox), { d with serial := s1 })

/-- Member `SerialComm::recvProc`. -/
def recvProc (Q : QSerialApi σ) (d : SerialDev σ) (timeout : Nat) :
    (Bool × QByteArray × Int) × SerialDev σ :=
  let recvBytes := toInt32 (Q.bytesAvailable d.serial)
  let s1 := if timeout != 0 && recvBytes == 0 then Q.waitForReadyRead d.serial timeout
    else d.serial
  let rd := Q.readAll s1
  let m_bytesRecv := toInt32 (rd.1.length : Int)
  ((decide (m_bytesRecv ≠ 0), rd.1, m_bytesRecv), { d with serial := rd.2 })

/-- The class `SerialComm` as an implementation of the virtual members. -/
def transport (Q : QSerialApi σ) : Transport (SerialDev σ) where
  setConnInfoProc := setConnInfoProc Q
  connectProc := connectProc Q
  closeProc := closeProc Q
  sendProc := sendProc Q
  inboxProc := inboxProc Q
  recvProc := recvProc Q
  checkConnProc := checkConnProc Q

end SerialComm

/-- A scripted socket, used to evaluate the classes at concrete inputs:
`peerUp` tells whether a connection attempt reaches `ConnectedState`,
`peerLets` whether a disconnection reaches `UnconnectedState`, `room` how many
bytes a write takes, `rx` the bytes buffered for reading. -/
structure ScriptSocket where
  state : SocketState
  rx : QByteArray
  peerUp : Bool
  peerLets : Bool
  room : Nat
  deriving DecidableEq, Repr

/-- The socket functions on a scripted socket. -/
def scriptApi : QSocketApi ScriptSocket where
  state := fun s => s.state
  connectToHost := fun s _ _ =>
    if s.peerUp then { s with state := SocketState.ConnectedState }
    else { s with state := SocketState.UnconnectedState }
  waitForConnected := fun s _ => s
  disconnectFromHost := fun s =>
    if s.peerLets then { s with state := SocketState.UnconnectedState }
    else { s with state := SocketState.ClosingState }
  waitForDisconnected := fun s _ => s
  bind := fun s _ _ => (true, { s with state := SocketState.BoundState })
  write := fun s data => ((min data.length s.room : Nat), s)
  writeDatagram := fun s data _ _ => ((min data.length s.room : Nat), s)
  waitForBytesWritten := fun s _ => s
  waitForReadyRead := fun s _ => s
  bytesAvailable := fun s => (s.rx.length : Int)
  readAll := fun s => (s.rx, { s with rx := [] })

/-- An unconnected scripted socket whose peer answers. -/
def idleSocket : ScriptSocket :=
  { state := SocketState.UnconnectedState, rx := [], peerUp := true, peerLets := true, room := 64 }

/-- A connected scripted socket whose peer lets go on disconnection. -/
def liveSocket : ScriptSocket :=
  { state := SocketState.ConnectedState, rx := [7, 9], peerUp := true, peerLets := true,
    room := 64 }

/-- A connected scripted socket whose disconnection does not complete. -/
def stuckSocket : ScriptSocket :=
  { state := SocketState.ConnectedState, rx := [], peerUp := true, peerLets := false, room := 64 }

/-- An unconnected scripted socket whose peer answers and has sent two bytes. -/
def loadedSocket : ScriptSocket :=
  { state := SocketState.UnconnectedState, rx := [7, 9], peerUp := true, peerLets := true,
    room := 64 }

/-- The members of a freshly constructed socket link around a given socket. -/
def sockDev (s : ScriptSocket) : SockDev ScriptSocket :=
  { socket := s, m_port := 0, hostAddr := QHostAddress.null, noReturn := false }

/-- The class `TCPComm` over scripted sockets. -/
def tcp : Transport (SockDev ScriptSocket) := TCPComm.transport scriptApi

/-- The class `UDPComm` over scripted sockets. -/
def udp : Transport (SockDev ScriptSocket) := UDPComm.transport scriptApi

/-- A link in status `ready` around a given socket, as `connect` leaves it. -/
def readyLink (s : ScriptSocket) : Comm (SockDev ScriptSocket) :=
  { dev := sockDev s, m_connString := "127.0.0.1", m_connNum := 45454, m_connAvailable := true,
    m_status := eStatus.ready, m_isClosed := false, m_isConnected := true }

/-- A freshly constructed link around an unconnected socket. -/
def freshLink : Comm (SockDev ScriptSocket) := Comm.new (sockDev idleSocket) 0

/-- The fresh link after `setConnInfo("127.0.0.1", 45454)`, the defaults of the main window. -/
def configuredLink : Comm (SockDev ScriptSocket) :=
  (Comm.setConnInfo tcp freshLink "127.0.0.1" 45454 0).2

/-- A scripted serial port, used to evaluate `SerialComm` at concrete inputs:
`unplugs` tells that the device goes away during the next wait for data, after
which the port is no longer open. -/
structure ScriptSerial where
  isOpen : Bool
  rx : QByteArray
  unplugs : Bool
  deriving DecidableEq, Repr

/-- The serial port functions on a scripted serial port. -/
def scriptSerialApi : QSerialApi ScriptSerial where
  setPortName := fun s _ => s
  setBaudRate := fun s _ => s
  isOpen := fun s => s.isOpen
  open_ := fun s => (true, { s with isOpen := true })
  close := fun s => { s with isOpen := false }
  write := fun s data => ((data.length : Nat), s)
  waitForBytesWritten := fun s _ => s
  waitForReadyRead := fun s _ => if s.unplugs then { s with isOpen := false, rx := [] } else s
  bytesAvailable := fun s => (s.rx.length : Int)
  readAll := fun s => (s.rx, { s with rx := [] })

/-- The class `SerialComm` over scripted serial ports. -/
def serial : Transport (SerialDev ScriptSerial) := SerialComm.transport scriptSerialApi

/-- A freshly constructed serial link whose device will be unplugged. -/
def freshSerialLink : Comm (SerialDev ScriptSerial) :=
  Comm.new { serial := { isOpen := false, rx := [], unplugs := true }, m_connAvailable := false } 0

/-- A call of one of the public operations of `Comm`, with its arguments
(`fired`: whether the guard timer cancelled the connect). -/
inductive Op where
  | setConnInfo (connString : String) (connNum : Int) (connInfo : Nat)
  | connect (timeout : Nat) (fired : Bool)
  | close (timeout : Nat)
  | send (data : QByteArray) (timeout : Nat) (async : Bool)
  | recv (buffer : QByteArray) (timeout : Nat) (async : Bool)
  | inbox (timeout : Nat) (async : Bool)
  | checkConn (emergency : Bool)
  | reconnect
  deriving DecidableEq, Repr

/-- The link after one call of a public operation, each run to quiescence; an
asynchronous call stores the worker, which `Ev.runJob` runs at the level of
events. -/
def Comm.applyOp {τ : Type} (T : Transport τ) (c : Comm τ) : Op → Comm τ
  | Op.setConnInfo connString connNum connInfo =>
    (Comm.setConnInfo T c connString connNum connInfo).2
  | Op.connect timeout fired => (Comm.connect T c timeout fired).2
  | Op.close timeout => (Comm.close T c timeout).2
  | Op.send data timeout async => (Comm.send T c data timeout async).2
  | Op.recv buffer timeout async => (Comm.recv T c buffer timeout async).2.2
  | Op.inbox timeout async => (Comm.inbox T c timeout async).2
  | Op.checkConn emergency => (Comm.checkConn T c emergency).2
  | Op.reconnect => (Comm.reconnect T c).2

/-- The link after a sequence of calls of public operations, in order. -/
def Comm.runOps {τ : Type} (T : Transport τ) (c : Comm τ) (ops : List Op) : Comm τ :=
  ops.foldl (Comm.applyOp T) c

/-- The statuses an operation can leave a link in: the other statuses are
passed through inside an operation. -/
def eStatus.resting : eStatus → Bool
  | eStatus.closed => true
  | eStatus.ready => true
  | eStatus.connLost => true
  | eStatus.connFailed => true
  | eStatus.disconnFailed => true
  | eStatus.sendFailed => true
  | eStatus.recvFailed => true
  | _ => false

/-- The relation between status, `m_isConnected` and `m_isClosed` which the
operations maintain. -/
def Comm.Coherent {τ : Type} (c : Comm τ) : Prop :=
  c.m_status.resting = true ∧
  (c.m_status = eStatus.closed ∨ c.m_status = eStatus.connFailed ∨
      c.m_status = eStatus.connLost → c.m_isConnected = false) ∧
  (c.m_status = eStatus.ready → c.m_isClosed = false → c.m_isConnected = true)

/-- The floating point operations `CCloudPoints::setPoint` uses, on a type `F`
of `float` values: `toRadian a` is `angle * M_PI / 180.0` stored in a `float`. -/
structure FloatApi (F : Type) where
  toRadian : F → F
  mul : F → F → F
  cos : F → F
  sin : F → F

/-- A `QPointF`. -/
structure QPointF (F : Type) where
  x : F
  y : F
  deriving DecidableEq, Repr

/-- The data members of a `CCloudPoints` object which `setPoint` uses. -/
structure CCloudPoints (F : Type) where
  m_points : List (QPointF F)
  m_maxPoints : Int
  m_scale : F

namespace CCloudPoints

variable {F : Type}

/-- The loop `for (int i = 0; i < excess; i++) m_points.removeFirst();`. -/
def removeExcess : Nat → List (QPointF F) → List (QPointF F)
  | 0, pts => pts
  | n + 1, pts => removeExcess n pts.tail

/-- Member `CCloudPoints::setPoint`. -/
def setPoint (A : FloatApi F) (b : CCloudPoints F) (angle distance : F) : CCloudPoints F :=
  let radian := A.toRadian angle
  let distance1 := A.mul distance b.m_scale
  let x := A.mul distance1 (A.cos radian)
  let y := A.mul distance1 (A.sin radian)
  let b1 := { b with m_points := b.m_points ++ [{ x := x, y := y }] }
  let excess : Int := (b1.m_points.length : Int) - b1.m_maxPoints
  if excess > 0 then { b1 with m_points := removeExcess excess.toNat b1.m_points }
  else b1

/-- Member `CCloudPoints::getPointCount`. -/
def getPointCount (b : CCloudPoints F) : Int := (b.m_points.length : Int)

/-- Member `CCloudPoints::getPoints`. -/
def getPoints (b : CCloudPoints F) : List (QPointF F) := b.m_points

end CCloudPoints

/-- Integer arithmetic standing in for `float` in concrete evaluations. -/
def intFloat : FloatApi Int where
  toRadian := fun a => a
  mul := fun a b => a * b
  cos := fun a => a
  sin := fun a => a + 1

/-- A full buffer of capacity three. -/
def fullBuffer : CCloudPoints Int :=
  { m_points := [{ x := 1, y := 1 }, { x := 2, y := 2 }, { x := 3, y := 3 }], m_maxPoints := 3,
    m_scale := 1 }

/-- A link left in status `recvFailed` by a failed receive, around a given socket. -/
def recvFailedLink (s : ScriptSocket) : Comm (SockDev ScriptSocket) :=
  { readyLink s with m_status := eStatus.recvFailed }

/-- A ready link with a pending asynchronous job in a given status. -/
def busyLink (st : eStatus) : Comm (SockDev ScriptSocket) :=
  { readyLink liveSocket with m_status := st, worker := some (Job.doInboxProc 1000),
                              m_bytesInbox := 2 }

namespace Ev

variable {τ : Type}

/-- The call `QCoreApplication::processEvents()`: the notifications queued by
pool threads are delivered, in the order they were posted. -/
def processEvents (c : Comm τ) : Comm τ :=
  { c with emitted := c.emitted ++ c.queued, queued := [] }

/-- The task `setStatus` hands to `QtConcurrent::run`, when a pool thread runs
it: `m_status = eStatus::ready`, then the queued invocation of `onStatus`. -/
def poolRun (c : Comm τ) : Comm τ :=
  if c.poolTasks = 0 then c
  else
    let c1 := { c with poolTasks := c.poolTasks - 1 }
    let c2 := { c1 with m_status := eStatus.ready }
    { c2 with queued := c2.queued ++ [Signal.onStatus eStatus.ready] }

/-- Member `Comm::setStatus`, at the level of events. -/
def setStatus (c : Comm τ) (status : eStatus) : Comm τ :=
  if c.m_status = status then c
  else
    let c1 := { c with m_status := status }
    let c2 := c1.emit (Signal.onStatus status)
    let c3 := processEvents c2
    match c3.m_status with
    | eStatus.connected | eStatus.sent | eStatus.recved =>
      { c3 with poolTasks := c3.poolTasks + 1 }
    | _ => c3

/-- Member `Comm::checkConn`, at the level of events. -/
def checkConn (T : Transport τ) (c : Comm τ) (_emergency : Bool) : Bool × Comm τ :=
  if c.m_isClosed then
    (false, { c with m_isConnected := false })
  else
    let live := Comm.callCheckConnProc T c
    let c1 := live.2
    let c2 :=
      if live.1 then
        if !c1.m_isConnected then
          setStatus { c1 with m_isConnected := true } eStatus.connected
        else c1
      else
        if c1.m_isConnected then
          setStatus { c1 with m_isConnected := false } eStatus.connLost
        else c1
    (c2.m_isConnected, c2)

/-- Members `TCPComm::handleLostConn` and `UDPComm::handleLostConn`, the slot
of the socket's `disconnected` signal. -/
def handleLostConn (T : Transport τ) (c : Comm τ) : Comm τ :=
  if !c.m_isClosed then (checkConn T c true).2 else c

/-- The `disconnected` signals a socket emits during one call of a proc; each
comes with the state of the device at that moment. -/
def lostConns (T : Transport τ) (c : Comm τ) (mids : List τ) : Comm τ :=
  mids.foldl (fun c1 mid => handleLostConn T { c1 with dev := mid }) c

/-- Virtual call `connectProc(timeout)`, interrupted by `disconnected` signals. -/
def callConnectProc (T : Transport τ) (c : Comm τ) (timeout : Nat) (mids : List τ) :
    Bool × Comm τ :=
  let c1 := c.logCall ProcCall.connectProc
  let r := T.connectProc c1.m_connAvailable c1.dev timeout
  let c2 := lostConns T c1 mids
  (r.1, { c2 with dev := r.2 })

/-- Virtual call `closeProc(timeout)`, interrupted by `disconnected` signals. -/
def callCloseProc (T : Transport τ) (c : Comm τ) (timeout : Nat) (mids : List τ) :
    Bool × Comm τ :=
  let c1 := c.logCall ProcCall.closeProc
  let r := T.closeProc c1.dev timeout
  let c2 := lostConns T c1 mids
  (r.1, { c2 with dev := r.2 })

/-- Virtual call `sendProc(data, timeout)`, interrupted by `disconnected` signals. -/
def callSendProc (T : Transport τ) (c : Comm τ) (data : QByteArray) (timeout : Nat)
    (mids : List τ) : Bool × Comm τ :=
  let c1 := c.logCall ProcCall.sendProc
  let r := T.sendProc c1.dev data timeout
  let c2 := lostConns T c1 mids
  (r.1.1, { c2 with dev := r.2, m_bytesSent := r.1.2 })

/-- Virtual call `inboxProc(timeout)`, interrupted by `disconnected` signals. -/
def callInboxProc (T : Transport τ) (c : Comm τ) (timeout : Nat) (mids : List τ) :
    Bool × Comm τ :=
  let c1 := c.logCall ProcCall.inboxProc
  let r := T.inboxProc c1.dev timeout
  let c2 := lostConns T c1 mids
  (r.1.1, { c2 with dev := r.2, m_bytesInbox := r.1.2 })

/-- Virtual call `recvProc(buffer, timeout)`, interrupted by `disconnected`
signals; the second component is the buffer after the call. -/
def callRecvProc (T : Transport τ) (c : Comm τ) (timeout : Nat) (mids : List τ) :
    Bool × QByteArray × Comm τ :=
  let c1 := c.logCall ProcCall.recvProc
  let r := T.recvProc c1.dev timeout
  let c2 := lostConns T c1 mids
  (r.1.1, r.1.2.1, { c2 with dev := r.2, m_bytesRecv := r.1.2.2 })

/-- Member `Comm::connect`, at the level of events. -/
def connect (T : Transport τ) (c : Comm τ) (timeout : Nat) (fired : Bool) (mids : List τ) :
    Bool × Comm τ :=
  if !c.m_connAvailable then (false, c)
  else
    let c1 := { c with m_isClosed := false }
    let c2 := setStatus c1 eStatus.connecting
    let r := Comm.runINTime c2.m_enableConnTimeout timeout fired
      (fun s => callConnectProc T s timeout mids) c2
    let c3 := { r.2 with m_isConnected := r.1 }
    let c4 := if c3.m_isConnected then setStatus c3 eStatus.connected
      else setStatus c3 eStatus.connFailed
    (c4.m_isConnected, c4)

/-- Member `Comm::close`, at the level of events. -/
def close (T : Transport τ) (c : Comm τ) (timeout : Nat) (mids : List τ) : Bool × Comm τ :=
  let c1 := { c with m_isClosed := true }
  let live := Comm.callCheckConnProc T c1
  if !live.1 then (true, live.2)
  else
    let c2 := setStatus live.2 eStatus.closing
    let r := callCloseProc T c2 timeout mids
    let c3 := { r.2 with m_isConnected := !r.1 }
    let c4 := if !c3.m_isConnected then setStatus c3 eStatus.closed
      else setStatus c3 eStatus.disconnFailed
    (c4.m_isConnected, c4)

/-- Member `Comm::doSendProc`, at the level of events. -/
def doSendProc (T : Transport τ) (c : Comm τ) (data : QByteArray) (timeout : Nat)
    (mids : List τ) : Bool × Comm τ :=
  let c1 := { c with m_bytesSent := 0 }
  let c2 := setStatus c1 eStatus.sending
  let r :=
    if Comm.timed c2.m_enableSendTimeout timeout then
      let c3 := { c2 with progTimeout := some timeout }
      let r := callSendProc T c3 data timeout mids
      (r.1, { r.2 with progTimeout := none })
    else
      callSendProc T c2 data timeout mids
  let c4 := if r.1 then setStatus r.2 eStatus.sent else setStatus r.2 eStatus.sendFailed
  (r.1, c4)

/-- Member `Comm::send`, at the level of events. -/
def send (T : Transport τ) (c : Comm τ) (data : QByteArray) (timeout : Nat) (async : Bool)
    (mids : List τ) : Option Bool × Comm τ :=
  if !c.comm_idle then (some false, c)
  else if async then
    (none, { c with worker := some (Job.doSendProc data timeout), workerCanceled := false })
  else
    let r := doSendProc T c data timeout mids
    (some r.1, r.2)

/-- Member `Comm::doInboxProc`, at the level of events. -/
def doInboxProc (T : Transport τ) (c : Comm τ) (timeout : Nat) (mids : List τ) :
    Bool × Comm τ :=
  let c1 := { c with m_bytesInbox := 0 }
  let r :=
    if Comm.timed c1.m_enableRecvTimeout timeout then
      let c2 := { c1 with progTimeout := some timeout }
      let r := callInboxProc T c2 timeout mids
      (r.1, { r.2 with progTimeout := none })
    else
      callInboxProc T c1 timeout mids
  let c3 :=
    if r.1 then
      processEvents (r.2.emit (Signal.onProgress eProgress.inbox (toUInt32 r.2.m_bytesInbox)))
    else r.2
  (r.1, c3)

/-- Member `Comm::inbox`, at the level of events. -/
def inbox (T : Transport τ) (c : Comm τ) (timeout : Nat) (async : Bool) (mids : List τ) :
    Bool × Comm τ :=
  if !c.comm_idle then (false, c)
  else if async then
    (true, { c with worker := some (Job.doInboxProc timeout), workerCanceled := false })
  else
    doInboxProc T c timeout mids

/-- Member `Comm::doRecvProc`, at the level of events. -/
def doRecvProc (T : Transport τ) (c : Comm τ) (timeout : Nat) (mids : List τ) :
    Bool × QByteArray × Comm τ :=
  let c1 := { c with m_bytesRecv := 0 }
  let c2 := setStatus c1 eStatus.recving
  let r :=
    if Comm.timed c2.m_enableRecvTimeout timeout then
      let c3 := { c2 with progTimeout := some timeout }
      let r := callRecvProc T c3 timeout mids
      (r.1, r.2.1, { r.2.2 with progTimeout := none })
    else
      callRecvProc T c2 timeout mids
  let c4 := if r.1 then setStatus r.2.2 eStatus.recved else setStatus r.2.2 eStatus.recvFailed
  (r.1, r.2.1, c4)

/-- Member `Comm::recv`, at the level of events. -/
def recv (T : Transport τ) (c : Comm τ) (buffer : QByteArray) (timeout : Nat) (async : Bool)
    (mids : List τ) : Bool × QByteArray × Comm τ :=
  if !c.comm_idle then (false, buffer, c)
  else if async then
    (true, buffer, { c with worker := some (Job.doRecvProc timeout), workerCanceled := false })
  else
    doRecvProc T c timeout mids

/-- Member `Comm::reconnect`, at the level of events. -/
def reconnect (T : Transport τ) (c : Comm τ) (mids1 mids2 : List τ) : Bool × Comm τ :=
  let live := Comm.callCheckConnProc T c
  let c1 := if live.1 then (callCloseProc T live.2 INFINITE mids1).2 else live.2
  let c2 := (callConnectProc T c1 INFINITE mids2).2
  checkConn T c2 false

/-- The queued invocation of the pending worker, dispatched by the event loop:
the `do...Proc` member runs, whatever the status is by then. -/
def runJob (T : Transport τ) (c : Comm τ) (mids : List τ) : Comm τ :=
  match c.worker with
  | none => c
  | some (Job.doSendProc data timeout) =>
    { (doSendProc T { c with worker := none } data timeout mids).2 with worker := none }
  | some (Job.doInboxProc timeout) =>
    { (doInboxProc T { c with worker := none } timeout mids).2 with worker := none }
  | some (Job.doRecvProc timeout) =>
    { (doRecvProc T { c with worker := none } timeout mids).2.2 with worker := none }

/-- The caller returns to the event loop: the pending pool task runs and the
queued notifications are delivered. -/
def settle (c : Comm τ) : Comm τ :=
  processEvents (poolRun c)

/-- One event in the life of a link: a call of a public operation (with the
`disconnected` signals that interrupt its socket calls), a pool task running,
the event loop delivering queued notifications or running the pending worker,
or the device changing state by itself (`lost`: with a `disconnected` signal). -/
inductive Step (τ : Type) where
  | setConnInfo (connString : String) (connNum : Int) (connInfo : Nat)
  | connect (timeout : Nat) (fired : Bool) (mids : List τ)
  | close (timeout : Nat) (mids : List τ)
  | send (data : QByteArray) (timeout : Nat) (async : Bool) (mids : List τ)
  | recv (buffer : QByteArray) (timeout : Nat) (async : Bool) (mids : List τ)
  | inbox (timeout : Nat) (async : Bool) (mids : List τ)
  | checkConn (emergency : Bool)
  | reconnect (mids1 mids2 : List τ)
  | poolRun
  | processEvents
  | runJob (mids : List τ)
  | world (dev : τ) (lost : Bool)

/-- The link after one event. -/
def step (T : Transport τ) (c : Comm τ) : Step τ → Comm τ
  | Step.setConnInfo connString connNum connInfo =>
    (Comm.setConnInfo T c connString connNum connInfo).2
  | Step.connect timeout fired mids => (connect T c timeout fired mids).2
  | Step.close timeout mids => (close T c timeout mids).2
  | Step.send data timeout async mids => (send T c data timeout async mids).2
  | Step.recv buffer timeout async mids => (recv T c buffer timeout async mids).2.2
  | Step.inbox timeout async mids => (inbox T c timeout async mids).2
  | Step.checkConn emergency => (checkConn T c emergency).2
  | Step.reconnect mids1 mids2 => (reconnect T c mids1 mids2).2
  | Step.poolRun => poolRun c
  | Step.processEvents => processEvents c
  | Step.runJob mids => runJob T c mids
  | Step.world dev lost =>
    if lost then handleLostConn T { c with dev := dev } else { c with dev := dev }

/-- The link after a sequence of events, in order. -/
def run (T : Transport τ) (c : Comm τ) (steps : List (Step τ)) : Comm τ :=
  steps.foldl (step T) c

end Ev

/-- The part of the relation between status and `m_isConnected` which every
event maintains: in status `closed`, `connFailed` or `connLost` the flag is
false. -/
def Comm.FlagOK {τ : Type} (c : Comm τ) : Prop :=
  c.m_status = eStatus.closed ∨ c.m_status = eStatus.connFailed ∨
    c.m_status = eStatus.connLost → c.m_isConnected = false

/-- A connected scripted socket whose peer has just hung up. -/
def droppedSocket : ScriptSocket :=
  { state := SocketState.UnconnectedState, rx := [], peerUp := true, peerLets := true,
    room := 64 }

namespace Spec

/-- The fields of an endpoint string between its dots. -/
def dotFields : List Char → List (List Char)
  | [] => [[]]
  | c :: cs =>
    if c = '.' then [] :: dotFields cs
    else
      match dotFields cs with
      | [] => [[c]]
      | f :: fs => (c :: f) :: fs

/-- The number a field of decimal digits denotes. -/
def decimalValue (f : List Char) : Nat :=
  f.foldl (fun n c => 10 * n + (c.toNat - 48)) 0

/-- A decimal field with a value in 0..255. -/
def isOctetField (f : List Char) : Bool :=
  !f.isEmpty && f.all Char.isDigit && decide (decimalValue f ≤ 255)

/-- The specification's notion of a well-formed address, in its own words: a
dotted quad of four decimal fields, each in 0..255. -/
def wellFormedDottedQuad (connString : String) : Bool :=
  match dotFields connString.toList with
  | [a, b, c, d] => isOctetField a && isOctetField b && isOctetField c && isOctetField d
  | _ => false

end Spec

/-! ## Lemmas on the state machine -/

theorem dotFields_length (l : List Char) :
    (Spec.dotFields l).length = l.count '.' + 1 := by
  induction l with
  | nil => simp [Spec.dotFields]
  | cons c cs ih =>
    by_cases h : c = '.'
    · subst h
      simp [Spec.dotFields, ih]
    · have hne : ¬ (c == '.') = true := by simpa using h
      cases hf : Spec.dotFields cs with
      | nil => simp [hf] at ih
      | cons f fs =>
        rw [hf] at ih
        simp only [List.length_cons] at ih
        simp [Spec.dotFields, h, hf, List.count_cons, hne]
        omega

theorem wellFormed_three_dots (connString : String)
    (h : Spec.wellFormedDottedQuad connString = true) : countChar connString '.' = 3 := by
  have hl := dotFields_length connString.toList
  unfold Spec.wellFormedDottedQuad at h
  unfold countChar
  split at h
  · rename_i a b c d heq
    rw [heq] at hl
    simp only [List.length_cons, List.length_nil] at hl
    omega
  · simp at h

theorem setStatus_emitted_of_ne {τ : Type} (c : Comm τ) (s : eStatus) (h : c.m_status ≠ s)
    (hc : s ≠ eStatus.connected) (hs : s ≠ eStatus.sent) (hr : s ≠ eStatus.recved) :
    c.setStatus s = { c with m_status := s, emitted := c.emitted ++ [Signal.onStatus s] } := by
  cases s <;> simp_all [Comm.setStatus, Comm.emit]

theorem setStatus_terminal_of_ne {τ : Type} (c : Comm τ) (s : eStatus) (h : c.m_status ≠ s)
    (ht : s = eStatus.connected ∨ s = eStatus.sent ∨ s = eStatus.recved) :
    c.setStatus s = { c with m_status := eStatus.ready,
                             emitted := c.emitted ++ [Signal.onStatus s, Signal.onStatus eStatus.ready] } := by
  rcases ht with rfl | rfl | rfl <;> simp_all [Comm.setStatus, Comm.emit]

theorem setStatus_same {τ : Type} (c : Comm τ) (s : eStatus) (h : c.m_status = s) :
    c.setStatus s = c := by
  simp [Comm.setStatus, h]

theorem tcp_setConnInfo_result {σ : Type} (Q : QSocketApi σ) (c : Comm (SockDev σ))
    (connString : String) (connNum : Int) (connInfo : Nat) :
    (Comm.setConnInfo (TCPComm.transport Q) c connString connNum connInfo).1 =
      (decide (countChar connString '.' ≥ 3) &&
        (decide (connNum > 0) && decide (connNum ≤ 65535))) := by
  simp only [Comm.setConnInfo, Comm.callSetConnInfoProc, Comm.logCall, TCPComm.transport,
    TCPComm.setConnInfoProc]
  split <;> simp_all
  omega

theorem udp_setConnInfo_result {σ : Type} (Q : QSocketApi σ) (c : Comm (SockDev σ))
    (connString : String) (connNum : Int) (connInfo : Nat) :
    (Comm.setConnInfo (UDPComm.transport Q) c connString connNum connInfo).1 =
      (decide (connNum > 0) && decide (connNum ≤ 65535)) := by
  simp only [Comm.setConnInfo, Comm.callSetConnInfoProc, Comm.logCall, UDPComm.transport,
    UDPComm.setConnInfoProc]
  split <;> simp_all
  omega

/-! ## The claims -/

/-- C1: on a link whose status is not `ready`, each of `send`, `recv` and
`inbox`, synchronous or asynchronous, with any data, buffer and timeout,
returns false and hands back the very same object: status, `m_isConnected`, the
byte counters, the emitted signals and the trace of virtual calls (so no
`sendProc`, `recvProc` or `inboxProc` call) are all unchanged. -/
theorem not_ready_fails_untouched {τ : Type} (T : Transport τ) (c : Comm τ)
    (data buffer : QByteArray) (timeout : Nat) (async : Bool)
    (h : c.m_status ≠ eStatus.ready) :
    Comm.send T c data timeout async = (some false, c) ∧
    Comm.recv T c buffer timeout async = (false, buffer, c) ∧
    Comm.inbox T c timeout async = (false, c) := by
  simp [Comm.send, Comm.recv, Comm.inbox, Comm.comm_idle, h]

theorem not_ready_fails_untouched_witness :
    freshLink.m_status ≠ eStatus.ready ∧
    (Comm.send tcp freshLink [1, 2, 3] 1000 false = (some false, freshLink) ∧
     Comm.recv tcp freshLink [4] 1000 false = (false, [4], freshLink) ∧
     Comm.inbox tcp freshLink 1000 false = (false, freshLink)) :=
  ⟨by decide, not_ready_fails_untouched tcp freshLink [1, 2, 3] [4] 1000 false (by decide)⟩

/-- C2, as stated, fails: on a TCP link holding validated parameters, a rejected
`setConnInfo("999.999.1.1", 70000, 4096)` returns false but overwrites the
stored string, number and pointer and clears `m_connAvailable`; the link could
connect before the call and cannot after it. -/
theorem rejected_setConnInfo_overwrites :
    configuredLink.m_connAvailable = true ∧
    (tcp.setConnInfoProc configuredLink.dev "999.999.1.1" 70000 4096).1 = false ∧
    (Comm.setConnInfo tcp configuredLink "999.999.1.1" 70000 4096).1 = false ∧
    (Comm.setConnInfo tcp configuredLink "999.999.1.1" 70000 4096).2.m_connString
      ≠ configuredLink.m_connString ∧
    (Comm.setConnInfo tcp configuredLink "999.999.1.1" 70000 4096).2.m_connNum
      ≠ configuredLink.m_connNum ∧
    (Comm.setConnInfo tcp configuredLink "999.999.1.1" 70000 4096).2.m_connInfo
      ≠ configuredLink.m_connInfo ∧
    (Comm.setConnInfo tcp configuredLink "999.999.1.1" 70000 4096).2.m_connAvailable
      ≠ configuredLink.m_connAvailable ∧
    (Comm.connect tcp configuredLink 1000 false).1 = true ∧
    (Comm.connect tcp (Comm.setConnInfo tcp configuredLink "999.999.1.1" 70000 4096).2
      1000 false).1 = false := by
  decide

/-- C2, amended: when the transport rejects the triple, `setConnInfo` returns
false, stores the given string, number and pointer in place of the previous
ones and clears `m_connAvailable`, so that a following `connect` fails and
leaves the object as it is; status, `m_isConnected`, `m_isClosed`, the byte
counters and the emitted signals are unchanged. -/
theorem setConnInfo_rejected_stores_and_blocks {τ : Type} (T : Transport τ) (c : Comm τ)
    (connString : String) (connNum : Int) (connInfo : Nat)
    (h : (T.setConnInfoProc c.dev connString connNum connInfo).1 = false) :
    (Comm.setConnInfo T c connString connNum connInfo).1 = false ∧
    (Comm.setConnInfo T c connString connNum connInfo).2.m_connString = connString ∧
    (Comm.setConnInfo T c connString connNum connInfo).2.m_connNum = connNum ∧
    (Comm.setConnInfo T c connString connNum connInfo).2.m_connInfo = connInfo ∧
    (Comm.setConnInfo T c connString connNum connInfo).2.m_connAvailable = false ∧
    (Comm.setConnInfo T c connString connNum connInfo).2.m_status = c.m_status ∧
    (Comm.setConnInfo T c connString connNum connInfo).2.m_isConnected = c.m_isConnected ∧
    (Comm.setConnInfo T c connString connNum connInfo).2.m_isClosed = c.m_isClosed ∧
    (Comm.setConnInfo T c connString connNum connInfo).2.m_bytesSent = c.m_bytesSent ∧
    (Comm.setConnInfo T c connString connNum connInfo).2.m_bytesRecv = c.m_bytesRecv ∧
    (Comm.setConnInfo T c connString connNum connInfo).2.m_bytesInbox = c.m_bytesInbox ∧
    (Comm.setConnInfo T c connString connNum connInfo).2.emitted = c.emitted ∧
    ∀ (timeout : Nat) (fired : Bool),
      Comm.connect T (Comm.setConnInfo T c connString connNum connInfo).2 timeout fired
        = (false, (Comm.setConnInfo T c connString connNum connInfo).2) := by
  have h1 : (Comm.setConnInfo T c connString connNum connInfo).2.m_connAvailable = false := by
    simpa [Comm.setConnInfo, Comm.callSetConnInfoProc, Comm.logCall] using h
  refine ⟨?_, ?_, ?_, ?_, h1, ?_, ?_, ?_, ?_, ?_, ?_, ?_, ?_⟩
  · simpa [Comm.setConnInfo] using h1
  · simp [Comm.setConnInfo, Comm.callSetConnInfoProc, Comm.logCall]
  · simp [Comm.setConnInfo, Comm.callSetConnInfoProc, Comm.logCall]
  · simp [Comm.setConnInfo, Comm.callSetConnInfoProc, Comm.logCall]
  · simp [Comm.setConnInfo, Comm.callSetConnInfoProc, Comm.logCall]
  · simp [Comm.setConnInfo, Comm.callSetConnInfoProc, Comm.logCall]
  · simp [Comm.setConnInfo, Comm.callSetConnInfoProc, Comm.logCall]
  · simp [Comm.setConnInfo, Comm.callSetConnInfoProc, Comm.logCall]
  · simp [Comm.setConnInfo, Comm.callSetConnInfoProc, Comm.logCall]
  · simp [Comm.setConnInfo, Comm.callSetConnInfoProc, Comm.logCall]
  · simp [Comm.setConnInfo, Comm.callSetConnInfoProc, Comm.logCall]
  · intro timeout fired
    simp [Comm.connect, h1]

theorem setConnInfo_rejected_stores_and_blocks_witness :
    (tcp.setConnInfoProc configuredLink.dev "999.999.1.1" 70000 4096).1 = false ∧
    (Comm.setConnInfo tcp configuredLink "999.999.1.1" 70000 4096).2.m_connString
      = "999.999.1.1" ∧
    (Comm.setConnInfo tcp configuredLink "999.999.1.1" 70000 4096).2.m_connAvailable = false :=
  ⟨by decide,
   (setConnInfo_rejected_stores_and_blocks tcp configuredLink "999.999.1.1" 70000 4096
      (by decide)).2.1,
   (setConnInfo_rejected_stores_and_blocks tcp configuredLink "999.999.1.1" 70000 4096
      (by decide)).2.2.2.2.1⟩

/-- C3: for the TCP and the UDP transport, over any socket behaviour, any
endpoint string and any numeric parameter outside 1..65535, `setConnInfo`
returns false and the status is unchanged; on a freshly constructed TCP link
`setConnInfo("999.999.1.1", 70000)` returns false and the status is `closed`. -/
theorem setConnInfo_port_out_of_range {σ : Type} (Q : QSocketApi σ) (c : Comm (SockDev σ))
    (connString : String) (connNum : Int) (connInfo : Nat)
    (h : connNum < 1 ∨ 65535 < connNum) :
    ((Comm.setConnInfo (TCPComm.transport Q) c connString connNum connInfo).1 = false ∧
     (Comm.setConnInfo (TCPComm.transport Q) c connString connNum connInfo).2.m_status
       = c.m_status) ∧
    ((Comm.setConnInfo (UDPComm.transport Q) c connString connNum connInfo).1 = false ∧
     (Comm.setConnInfo (UDPComm.transport Q) c connString connNum connInfo).2.m_status
       = c.m_status) ∧
    (∀ (dev : SockDev σ) (commID : Int) (p : Nat),
      (Comm.setConnInfo (TCPComm.transport Q) (Comm.new dev commID) "999.999.1.1" 70000 p).1
        = false ∧
      (Comm.setConnInfo (TCPComm.transport Q) (Comm.new dev commID) "999.999.1.1" 70000 p).2.m_status
        = eStatus.closed) := by
  have hn : connNum ≤ 0 ∨ 65535 < connNum := by omega
  refine ⟨⟨?_, ?_⟩, ⟨?_, ?_⟩, ?_⟩
  · rw [tcp_setConnInfo_result]
    simp only [Bool.and_eq_false_imp, decide_eq_true_eq, decide_eq_false_iff_not]
    omega
  · simp [Comm.setConnInfo, Comm.callSetConnInfoProc, Comm.logCall]
  · rw [udp_setConnInfo_result]
    simp only [Bool.and_eq_false_imp, decide_eq_true_eq, decide_eq_false_iff_not]
    omega
  · simp [Comm.setConnInfo, Comm.callSetConnInfoProc, Comm.logCall]
  · intro dev commID p
    constructor
    · simp [Comm.setConnInfo, Comm.callSetConnInfoProc, Comm.logCall, TCPComm.transport,
        TCPComm.setConnInfoProc]
    · simp [Comm.setConnInfo, Comm.callSetConnInfoProc, Comm.logCall, Comm.new]

theorem setConnInfo_port_out_of_range_witness :
    ((70000 : Int) < 1 ∨ 65535 < (70000 : Int)) ∧
    (Comm.setConnInfo tcp configuredLink "10.0.0.1" 70000 0).1 = false ∧
    (Comm.setConnInfo udp configuredLink "10.0.0.1" 70000 0).1 = false :=
  ⟨by decide,
   (setConnInfo_port_out_of_range scriptApi configuredLink "10.0.0.1" 70000 0
      (by decide)).1.1,
   (setConnInfo_port_out_of_range scriptApi configuredLink "10.0.0.1" 70000 0
      (by decide)).2.1.1⟩

/-- C4, as stated, fails: the TCP transport accepts "999.999.1.1" with port 80
and the UDP transport accepts "lidar" with port 80, though neither string is a
well-formed dotted quad and neither is empty. -/
theorem illFormed_address_accepted :
    Spec.wellFormedDottedQuad "999.999.1.1" = false ∧
    (Comm.setConnInfo tcp freshLink "999.999.1.1" 80 0).1 = true ∧
    Spec.wellFormedDottedQuad "lidar" = false ∧
    "lidar" ≠ "" ∧
    (Comm.setConnInfo udp freshLink "lidar" 80 0).1 = true := by
  decide

/-- C4, amended: over any socket behaviour, the TCP transport makes
`setConnInfo` return true exactly when the endpoint string has at least three
dots and the numeric parameter is in 1..65535; the UDP transport exactly when
the numeric parameter is in 1..65535, whatever the string, and it then takes
the wildcard address unless the string has exactly three dots.  A well-formed
dotted quad with a port in range is accepted by both, the UDP transport then
keeping the given address. -/
theorem setConnInfo_accepts_iff {σ : Type} (Q : QSocketApi σ) (c : Comm (SockDev σ))
    (connString : String) (connNum : Int) (connInfo : Nat) :
    ((Comm.setConnInfo (TCPComm.transport Q) c connString connNum connInfo).1 = true ↔
      3 ≤ countChar connString '.' ∧ 1 ≤ connNum ∧ connNum ≤ 65535) ∧
    ((Comm.setConnInfo (UDPComm.transport Q) c connString connNum connInfo).1 = true ↔
      1 ≤ connNum ∧ connNum ≤ 65535) ∧
    (1 ≤ connNum ∧ connNum ≤ 65535 →
      (Comm.setConnInfo (UDPComm.transport Q) c connString connNum connInfo).2.dev.hostAddr =
        if countChar connString '.' = 3 then QHostAddress.ofString connString
        else QHostAddress.anyIPv4) ∧
    (Spec.wellFormedDottedQuad connString = true ∧ 1 ≤ connNum ∧ connNum ≤ 65535 →
      (Comm.setConnInfo (TCPComm.transport Q) c connString connNum connInfo).1 = true ∧
      (Comm.setConnInfo (UDPComm.transport Q) c connString connNum connInfo).1 = true ∧
      (Comm.setConnInfo (UDPComm.transport Q) c connString connNum connInfo).2.dev.hostAddr =
        QHostAddress.ofString connString) := by
  have hudp : 1 ≤ connNum ∧ connNum ≤ 65535 →
      (Comm.setConnInfo (UDPComm.transport Q) c connString connNum connInfo).2.dev.hostAddr =
        if countChar connString '.' = 3 then QHostAddress.ofString connString
        else QHostAddress.anyIPv4 := by
    intro hn
    have h0 : ¬ (connNum ≤ 0 ∨ 65535 < connNum) := by omega
    simp only [Comm.setConnInfo, Comm.callSetConnInfoProc, Comm.logCall, UDPComm.transport,
      UDPComm.setConnInfoProc]
    by_cases h3 : countChar connString '.' = 3 <;> simp [h3, h0]
  refine ⟨?_, ?_, hudp, ?_⟩
  · rw [tcp_setConnInfo_result]
    simp only [Bool.and_eq_true, decide_eq_true_eq]
    omega
  · rw [udp_setConnInfo_result]
    simp only [Bool.and_eq_true, decide_eq_true_eq]
    omega
  · rintro ⟨hw, h1, h2⟩
    have h3 := wellFormed_three_dots connString hw
    refine ⟨?_, ?_, ?_⟩
    · rw [tcp_setConnInfo_result]
      simp only [Bool.and_eq_true, decide_eq_true_eq]
      omega
    · rw [udp_setConnInfo_result]
      simp only [Bool.and_eq_true, decide_eq_true_eq]
      omega
    · rw [hudp ⟨h1, h2⟩]
      simp [h3]

theorem setConnInfo_accepts_iff_witness :
    (Spec.wellFormedDottedQuad "127.0.0.1" = true ∧ (1 : Int) ≤ 45454 ∧ (45454 : Int) ≤ 65535) ∧
    ((Comm.setConnInfo tcp freshLink "127.0.0.1" 45454 0).1 = true ∧
     (Comm.setConnInfo udp freshLink "127.0.0.1" 45454 0).1 = true ∧
     (Comm.setConnInfo udp freshLink "127.0.0.1" 45454 0).2.dev.hostAddr =
       QHostAddress.ofString "127.0.0.1") :=
  ⟨by decide,
   (setConnInfo_accepts_iff scriptApi freshLink "127.0.0.1" 45454 0).2.2.2 (by decide)⟩

/-- C5: on a link whose `m_connAvailable` is false, `connect` with any timeout
returns false and hands back the very same object: no signal is emitted,
status, `m_isConnected` and `m_isClosed` are unchanged, and the trace of
virtual calls is unchanged (no `connectProc` call). -/
theorem connect_without_parameters {τ : Type} (T : Transport τ) (c : Comm τ)
    (timeout : Nat) (fired : Bool) (h : c.m_connAvailable = false) :
    Comm.connect T c timeout fired = (false, c) := by
  simp [Comm.connect, h]

theorem connect_without_parameters_witness :
    freshLink.m_connAvailable = false ∧
    Comm.connect tcp freshLink 1000 false = (false, freshLink) :=
  ⟨by decide, connect_without_parameters tcp freshLink 1000 false (by decide)⟩

/-- C7: whatever the status, when `checkConnProc` reports the transport not
live, `close` returns true, emits nothing and leaves the status and
`m_isConnected` unchanged. -/
theorem close_not_live {τ : Type} (T : Transport τ) (c : Comm τ) (timeout : Nat)
    (h : T.checkConnProc c.dev = false) :
    (Comm.close T c timeout).1 = true ∧
    (Comm.close T c timeout).2.emitted = c.emitted ∧
    (Comm.close T c timeout).2.m_status = c.m_status ∧
    (Comm.close T c timeout).2.m_isConnected = c.m_isConnected := by
  simp [Comm.close, Comm.callCheckConnProc, Comm.logCall, h]

theorem close_not_live_witness :
    tcp.checkConnProc freshLink.dev = false ∧
    ((Comm.close tcp freshLink 1000).1 = true ∧
     (Comm.close tcp freshLink 1000).2.emitted = freshLink.emitted ∧
     (Comm.close tcp freshLink 1000).2.m_status = freshLink.m_status ∧
     (Comm.close tcp freshLink 1000).2.m_isConnected = freshLink.m_isConnected) :=
  ⟨by decide, close_not_live tcp freshLink 1000 (by decide)⟩

/-- C9, the code at the failing inputs: on a ready TCP link whose socket
disconnects (`closeProc` succeeds), `close` ends with the socket unconnected
and status `closed` and returns false; on one whose socket does not complete
the disconnection (`closeProc` fails) it ends with status `disconnFailed` and
returns true; on a link whose transport was not live it returns true. -/
theorem close_result_inverted :
    ((tcp.closeProc (readyLink liveSocket).dev 1000).1 = true ∧
      (Comm.close tcp (readyLink liveSocket) 1000).1 = false ∧
      (Comm.close tcp (readyLink liveSocket) 1000).2.dev.socket.state
        = SocketState.UnconnectedState ∧
      (Comm.close tcp (readyLink liveSocket) 1000).2.m_status = eStatus.closed) ∧
    ((tcp.closeProc (readyLink stuckSocket).dev 1000).1 = false ∧
      (Comm.close tcp (readyLink stuckSocket) 1000).1 = true ∧
      (Comm.close tcp (readyLink stuckSocket) 1000).2.m_status = eStatus.disconnFailed) ∧
    (tcp.checkConnProc freshLink.dev = false ∧ (Comm.close tcp freshLink 1000).1 = true) := by
  decide

theorem settle_setStatus {τ : Type} (c : Comm τ) (s : eStatus) (hq : c.queued = [])
    (hp : c.poolTasks = 0) : Ev.settle (Ev.setStatus c s) = Comm.setStatus c s := by
  by_cases h : c.m_status = s
  · cases c
    simp_all [Ev.settle, Ev.poolRun, Ev.processEvents, Ev.setStatus, Comm.setStatus]
  · cases s <;>
      simp [Ev.settle, Ev.poolRun, Ev.processEvents, Ev.setStatus, Comm.setStatus, Comm.emit,
        h, hq, hp]

/-- C10, as stated, fails: on a TCP link, `connect` followed at once by a
synchronous `send` (the pool task of the auto-advance has run, the caller has
not yet processed events) delivers `connected`, `sending`, `ready`: the first
notification of the next operation comes between `connected` and the `ready`
that follows it.  The same is seen on `setStatus` alone. -/
theorem ready_overtaken_by_next_operation :
    (Ev.run tcp (Comm.new (sockDev loadedSocket) 0)
      [Ev.Step.setConnInfo "127.0.0.1" 45454 0, Ev.Step.connect 1000 false [], Ev.Step.poolRun,
       Ev.Step.send [1, 2, 3] 1000 false []]).statusTrace =
      [eStatus.connecting, eStatus.connected, eStatus.sending, eStatus.ready, eStatus.sent] ∧
    (Ev.setStatus (Ev.poolRun (Ev.setStatus freshLink eStatus.connected))
      eStatus.sending).emitted =
      [Signal.onStatus eStatus.connected, Signal.onStatus eStatus.sending,
       Signal.onStatus eStatus.ready] := by
  decide

/-- C10, amended: for a target `s` among `connected`, `sent`, `recved` that
differs from the current status, `setStatus` delivers the notification for `s`
at once (followed by the notifications that were still queued), leaves the
status `s` and starts one pool task.  That task sets the status `ready` and
queues exactly one `ready` notification, which is delivered at the next event
processing, after the one for `s`: when the caller processes events before
another operation, the notifications are `s`, `ready` with nothing between them
and the link is as the one-step `Comm.setStatus` leaves it; when another status
is set first, its notification comes between them.  For every other target no
pool task is started and nothing is queued: only the notification for the
target itself is emitted (none when the status already equals it), followed by
what was queued before. -/
theorem setStatus_queues_ready {τ : Type} (c : Comm τ) (s : eStatus) :
    ((s = eStatus.connected ∨ s = eStatus.sent ∨ s = eStatus.recved) → c.m_status ≠ s →
      ((Ev.setStatus c s).emitted = c.emitted ++ [Signal.onStatus s] ++ c.queued ∧
        (Ev.setStatus c s).queued = [] ∧
        (Ev.setStatus c s).m_status = s ∧
        (Ev.setStatus c s).poolTasks = c.poolTasks + 1) ∧
      (c.poolTasks = 0 →
        ((Ev.poolRun (Ev.setStatus c s)).m_status = eStatus.ready ∧
          (Ev.poolRun (Ev.setStatus c s)).queued = [Signal.onStatus eStatus.ready] ∧
          (Ev.poolRun (Ev.setStatus c s)).poolTasks = 0 ∧
          (Ev.poolRun (Ev.setStatus c s)).emitted =
            c.emitted ++ [Signal.onStatus s] ++ c.queued) ∧
        ((Ev.settle (Ev.setStatus c s)).emitted =
            c.emitted ++ [Signal.onStatus s] ++ c.queued ++ [Signal.onStatus eStatus.ready] ∧
          (Ev.settle (Ev.setStatus c s)).m_status = eStatus.ready ∧
          (Ev.settle (Ev.setStatus c s)).queued = []) ∧
        (c.queued = [] → Ev.settle (Ev.setStatus c s) = Comm.setStatus c s) ∧
        (∀ t : eStatus, t ≠ eStatus.ready →
          (Ev.setStatus (Ev.poolRun (Ev.setStatus c s)) t).emitted =
            c.emitted ++ [Signal.onStatus s] ++ c.queued ++
              [Signal.onStatus t, Signal.onStatus eStatus.ready]))) ∧
    (¬ (s = eStatus.connected ∨ s = eStatus.sent ∨ s = eStatus.recved) →
      (Ev.setStatus c s).poolTasks = c.poolTasks ∧
      (Ev.setStatus c s).m_status = s ∧
      (Ev.setStatus c s).emitted =
        c.emitted ++ (if c.m_status = s then [] else Signal.onStatus s :: c.queued) ∧
      (Ev.setStatus c s).queued = (if c.m_status = s then c.queued else [])) := by
  constructor
  · intro ht hne
    refine ⟨?_, ?_⟩
    · rcases ht with rfl | rfl | rfl <;>
        simp [Ev.setStatus, Ev.processEvents, Comm.emit, hne]
    · intro hp
      refine ⟨?_, ?_, ?_, ?_⟩
      · rcases ht with rfl | rfl | rfl <;>
          simp [Ev.setStatus, Ev.poolRun, Ev.processEvents, Comm.emit, hne, hp]
      · rcases ht with rfl | rfl | rfl <;>
          simp [Ev.settle, Ev.setStatus, Ev.poolRun, Ev.processEvents, Comm.emit, hne, hp]
      · intro hq
        exact settle_setStatus c s hq hp
      · intro t htr
        have htr2 : ¬ (eStatus.ready = t) := fun h => htr h.symm
        rcases ht with rfl | rfl | rfl <;> cases t <;>
          simp [Ev.setStatus, Ev.poolRun, Ev.processEvents, Comm.emit, hne, hp] at htr2 ⊢
  · intro ht
    have hc : s ≠ eStatus.connected := fun h => ht (Or.inl h)
    have hs : s ≠ eStatus.sent := fun h => ht (Or.inr (Or.inl h))
    have hr : s ≠ eStatus.recved := fun h => ht (Or.inr (Or.inr h))
    by_cases hcur : c.m_status = s
    · simp [Ev.setStatus, hcur]
    · cases s <;> simp_all [Ev.setStatus, Ev.processEvents, Comm.emit]

theorem setStatus_queues_ready_witness :
    (Ev.settle (Ev.setStatus freshLink eStatus.connected)).emitted =
      freshLink.emitted ++ [Signal.onStatus eStatus.connected] ++ freshLink.queued ++
        [Signal.onStatus eStatus.ready] ∧
    (Ev.settle (Ev.setStatus freshLink eStatus.connected)).m_status = eStatus.ready ∧
    (Ev.settle (Ev.setStatus freshLink eStatus.connected)).queued = [] :=
  ((setStatus_queues_ready freshLink eStatus.connected).1 (Or.inl rfl) (by decide)).2
    (by decide) |>.2.1

/-- C11: on every status of the data model (every enumerator but the band
marker `onError`, which no operation sets), `isIdle` holds exactly on `ready`,
`isBusy` exactly on `sending` and `recving`, `isAtHome` exactly on `closed` and
`closing`, `isDone` exactly on `sent` and `recved`, and `isOnError` exactly on
`connLost`, `connFailed`, `disconnFailed`, `sendFailed` and `recvFailed`.  On
every enumerator no two of the five predicates hold together, and on
`connecting` and `connected` none holds. -/
theorem status_predicates {τ : Type} (c : Comm τ) :
    (c.m_status ≠ eStatus.onError →
      (c.isIdle = true ↔ c.m_status = eStatus.ready) ∧
      (c.isBusy = true ↔ c.m_status = eStatus.sending ∨ c.m_status = eStatus.recving) ∧
      (c.isAtHome = true ↔ c.m_status = eStatus.closed ∨ c.m_status = eStatus.closing) ∧
      (c.isDone = true ↔ c.m_status = eStatus.sent ∨ c.m_status = eStatus.recved) ∧
      (c.isOnError = true ↔
        c.m_status = eStatus.connLost ∨ c.m_status = eStatus.connFailed ∨
        c.m_status = eStatus.disconnFailed ∨ c.m_status = eStatus.sendFailed ∨
        c.m_status = eStatus.recvFailed)) ∧
    (¬ (c.isIdle = true ∧ c.isBusy = true) ∧ ¬ (c.isIdle = true ∧ c.isAtHome = true) ∧
      ¬ (c.isIdle = true ∧ c.isDone = true) ∧ ¬ (c.isIdle = true ∧ c.isOnError = true) ∧
      ¬ (c.isBusy = true ∧ c.isAtHome = true) ∧ ¬ (c.isBusy = true ∧ c.isDone = true) ∧
      ¬ (c.isBusy = true ∧ c.isOnError = true) ∧ ¬ (c.isAtHome = true ∧ c.isDone = true) ∧
      ¬ (c.isAtHome = true ∧ c.isOnError = true) ∧ ¬ (c.isDone = true ∧ c.isOnError = true)) ∧
    (c.m_status = eStatus.connecting ∨ c.m_status = eStatus.connected →
      c.isIdle = false ∧ c.isBusy = false ∧ c.isAtHome = false ∧ c.isDone = false ∧
      c.isOnError = false) := by
  simp only [Comm.isIdle, Comm.isBusy, Comm.isAtHome, Comm.isDone, Comm.isOnError,
    Comm.comm_idle, Comm.comm_busy, Comm.comm_home, Comm.comm_done, Comm.comm_onErr]
  cases c.m_status <;> simp [eStatus.toNat]

theorem status_predicates_witness :
    (recvFailedLink liveSocket).m_status ≠ eStatus.onError ∧
    ((recvFailedLink liveSocket).isOnError = true ↔
      (recvFailedLink liveSocket).m_status = eStatus.connLost ∨
      (recvFailedLink liveSocket).m_status = eStatus.connFailed ∨
      (recvFailedLink liveSocket).m_status = eStatus.disconnFailed ∨
      (recvFailedLink liveSocket).m_status = eStatus.sendFailed ∨
      (recvFailedLink liveSocket).m_status = eStatus.recvFailed) :=
  ⟨by decide, ((status_predicates (recvFailedLink liveSocket)).1 (by decide)).2.2.2.2⟩

theorem send_sync_eq {τ : Type} (T : Transport τ) (c : Comm τ) (data : QByteArray)
    (timeout : Nat) (h : c.m_status = eStatus.ready) :
    Comm.send T c data timeout false =
      (some (T.sendProc c.dev data timeout).1.1,
       { c with
         m_bytesSent := (T.sendProc c.dev data timeout).1.2
         dev := (T.sendProc c.dev data timeout).2
         calls := c.calls ++ [ProcCall.sendProc]
         progTimeout := if Comm.timed c.m_enableSendTimeout timeout then none else c.progTimeout
         m_status := if (T.sendProc c.dev data timeout).1.1 then eStatus.ready
           else eStatus.sendFailed
         emitted := c.emitted ++
           (if (T.sendProc c.dev data timeout).1.1 then
              [Signal.onStatus eStatus.sending, Signal.onStatus eStatus.sent,
               Signal.onStatus eStatus.ready]
            else [Signal.onStatus eStatus.sending, Signal.onStatus eStatus.sendFailed]) }) := by
  cases hp : (T.sendProc c.dev data timeout).1.1 <;>
    cases ht : Comm.timed c.m_enableSendTimeout timeout <;>
    simp [Comm.send, Comm.comm_idle, Comm.doSendProc, Comm.callSendProc, Comm.logCall,
      Comm.setStatus, Comm.emit, h, hp, ht]

theorem recv_sync_eq {τ : Type} (T : Transport τ) (c : Comm τ) (buffer : QByteArray)
    (timeout : Nat) (h : c.m_status = eStatus.ready) :
    Comm.recv T c buffer timeout false =
      ((T.recvProc c.dev timeout).1.1, (T.recvProc c.dev timeout).1.2.1,
       { c with
         m_bytesRecv := (T.recvProc c.dev timeout).1.2.2
         dev := (T.recvProc c.dev timeout).2
         calls := c.calls ++ [ProcCall.recvProc]
         progTimeout := if Comm.timed c.m_enableRecvTimeout timeout then none else c.progTimeout
         m_status := if (T.recvProc c.dev timeout).1.1 then eStatus.ready
           else eStatus.recvFailed
         emitted := c.emitted ++
           (if (T.recvProc c.dev timeout).1.1 then
              [Signal.onStatus eStatus.recving, Signal.onStatus eStatus.recved,
               Signal.onStatus eStatus.ready]
            else [Signal.onStatus eStatus.recving, Signal.onStatus eStatus.recvFailed]) }) := by
  cases hp : (T.recvProc c.dev timeout).1.1 <;>
    cases ht : Comm.timed c.m_enableRecvTimeout timeout <;>
    simp [Comm.recv, Comm.comm_idle, Comm.doRecvProc, Comm.callRecvProc, Comm.logCall,
      Comm.setStatus, Comm.emit, h, hp, ht]

theorem inbox_sync_eq {τ : Type} (T : Transport τ) (c : Comm τ) (timeout : Nat)
    (h : c.m_status = eStatus.ready) :
    Comm.inbox T c timeout false =
      ((T.inboxProc c.dev timeout).1.1,
       { c with
         m_bytesInbox := (T.inboxProc c.dev timeout).1.2
         dev := (T.inboxProc c.dev timeout).2
         calls := c.calls ++ [ProcCall.inboxProc]
         progTimeout := if Comm.timed c.m_enableRecvTimeout timeout then none else c.progTimeout
         emitted := c.emitted ++
           (if (T.inboxProc c.dev timeout).1.1 then
              [Signal.onProgress eProgress.inbox (toUInt32 (T.inboxProc c.dev timeout).1.2)]
            else []) }) := by
  cases hp : (T.inboxProc c.dev timeout).1.1 <;>
    cases ht : Comm.timed c.m_enableRecvTimeout timeout <;>
    simp [Comm.inbox, Comm.comm_idle, Comm.doInboxProc, Comm.callInboxProc, Comm.logCall,
      Comm.emit, h, hp, ht]

/-- C14, the code at the failing input: on a ready link the asynchronous `send`
stores the worker and has no result (it leaves the function without a `return`
statement), while the asynchronous `recv` and `inbox` return true. -/
theorem async_send_returns_nothing :
    (readyLink liveSocket).m_status = eStatus.ready ∧
    (Comm.send tcp (readyLink liveSocket) [1, 2, 3] 1000 true).1 = none ∧
    (Comm.send tcp (readyLink liveSocket) [1, 2, 3] 1000 true).2.worker =
      some (Job.doSendProc [1, 2, 3] 1000) ∧
    (Comm.recv tcp (readyLink liveSocket) [] 1000 true).1 = true ∧
    (Comm.inbox tcp (readyLink liveSocket) 1000 true).1 = true := by
  decide

theorem setStatus_dev {τ : Type} (c : Comm τ) (s : eStatus) : (c.setStatus s).dev = c.dev := by
  unfold Comm.setStatus
  split
  · rfl
  · cases s <;> rfl

theorem checkConn_dev {τ : Type} (T : Transport τ) (c : Comm τ) (emergency : Bool) :
    (Comm.checkConn T c emergency).2.dev = c.dev := by
  unfold Comm.checkConn
  split
  · rfl
  · simp only [Comm.callCheckConnProc, Comm.logCall]
    split <;> split <;> simp [setStatus_dev]

theorem checkConn_result_of_open {τ : Type} (T : Transport τ) (c : Comm τ) (emergency : Bool)
    (hcl : c.m_isClosed = false) :
    (Comm.checkConn T c emergency).1 = T.checkConnProc c.dev := by
  cases hlive : T.checkConnProc c.dev <;> cases hconn : c.m_isConnected <;>
    simp [Comm.checkConn, Comm.callCheckConnProc, Comm.logCall, hcl, hlive, hconn] <;>
    simp only [Comm.setStatus, Comm.emit] <;> split <;> rfl

theorem checkConn_latched {τ : Type} (T : Transport τ) (c : Comm τ) (emergency : Bool)
    (hcl : c.m_isClosed = true) :
    Comm.checkConn T c emergency = (false, { c with m_isConnected := false }) := by
  simp [Comm.checkConn, hcl]

/-- C17, as stated, fails: on a freshly constructed TCP link with validated
parameters, and on a link on which `close` was called, `reconnect` connects the
socket, so that the transport is live after it, and returns false. -/
theorem reconnect_live_but_false :
    ((Comm.reconnect tcp configuredLink).1 = false ∧
      tcp.checkConnProc (Comm.reconnect tcp configuredLink).2.dev = true) ∧
    ((Comm.reconnect tcp (Comm.close tcp (readyLink liveSocket) 1000).2).1 = false ∧
      tcp.checkConnProc (Comm.reconnect tcp (Comm.close tcp (readyLink liveSocket) 1000).2).2.dev
        = true) := by
  decide

/-- C17, amended: `reconnect` always makes its close-then-connect attempt
(`closeProc` when the transport is live, then `connectProc`).  On a link whose
`m_isClosed` latch is clear it returns true exactly when the transport is live
after that attempt; on a link whose latch is set (a freshly constructed link, a
link on which `close` was called) it returns false whatever the liveness, sets
`m_isConnected` false and leaves the status and the emitted signals as they
were. -/
theorem reconnect_reports_liveness_unless_latched {τ : Type} (T : Transport τ) (c : Comm τ) :
    (Comm.reconnect T c).2.dev =
      (T.connectProc c.m_connAvailable
        (if T.checkConnProc c.dev then (T.closeProc c.dev INFINITE).2 else c.dev) INFINITE).2 ∧
    (c.m_isClosed = false →
      (Comm.reconnect T c).1 = T.checkConnProc (Comm.reconnect T c).2.dev) ∧
    (c.m_isClosed = true →
      (Comm.reconnect T c).1 = false ∧
      (Comm.reconnect T c).2.m_isConnected = false ∧
      (Comm.reconnect T c).2.m_status = c.m_status ∧
      (Comm.reconnect T c).2.emitted = c.emitted) := by
  have hdev : (Comm.reconnect T c).2.dev =
      (T.connectProc c.m_connAvailable
        (if T.checkConnProc c.dev then (T.closeProc c.dev INFINITE).2 else c.dev) INFINITE).2 := by
    rw [Comm.reconnect, checkConn_dev]
    cases hl : T.checkConnProc c.dev <;>
      simp [Comm.callCheckConnProc, Comm.callCloseProc, Comm.callConnectProc, Comm.logCall, hl]
  have hlatch : ∀ b : Bool, c.m_isClosed = b →
      (Comm.callConnectProc T
        (if (Comm.callCheckConnProc T c).1 then
          (Comm.callCloseProc T (Comm.callCheckConnProc T c).2 INFINITE).2
         else (Comm.callCheckConnProc T c).2) INFINITE).2.m_isClosed = b := by
    intro b hb
    cases hl : T.checkConnProc c.dev <;>
      simp [Comm.callCheckConnProc, Comm.callCloseProc, Comm.callConnectProc, Comm.logCall, hl,
        hb]
  refine ⟨hdev, ?_, ?_⟩
  · intro hcl
    rw [hdev]
    rw [Comm.reconnect, checkConn_result_of_open _ _ _ (hlatch false hcl)]
    cases hl : T.checkConnProc c.dev <;>
      simp [Comm.callCheckConnProc, Comm.callCloseProc, Comm.callConnectProc, Comm.logCall, hl]
  · intro hcl
    rw [Comm.reconnect, checkConn_latched _ _ _ (hlatch true hcl)]
    cases hl : T.checkConnProc c.dev <;>
      simp [Comm.callCheckConnProc, Comm.callCloseProc, Comm.callConnectProc, Comm.logCall, hl]

theorem reconnect_reports_liveness_unless_latched_witness :
    (readyLink idleSocket).m_isClosed = false ∧
    (Comm.reconnect tcp (readyLink idleSocket)).1 =
      tcp.checkConnProc (Comm.reconnect tcp (readyLink idleSocket)).2.dev :=
  ⟨by decide,
   (reconnect_reports_liveness_unless_latched tcp (readyLink idleSocket)).2.1 (by decide)⟩

/-- C20: when the handler of `progTimeout` runs while the worker is running, the
worker is cancelled and the status is forced to `sendFailed` from `sending`,
to `recvFailed` from `recving` and to `connFailed` from `connecting`, each with
its notification; from `ready` the status stays and exactly one `onProgress`
of kind `inbox` with the stored `m_bytesInbox` count is emitted; from every
other status neither the status nor the emitted signals change.  When the
worker is not running the handler changes nothing. -/
theorem progTimeout_outcome {τ : Type} (c : Comm τ) :
    (c.worker.isSome = true →
      c.progTimeoutHandler.workerCanceled = true ∧
      (c.m_status = eStatus.sending →
        c.progTimeoutHandler.m_status = eStatus.sendFailed ∧
        c.progTimeoutHandler.emitted = c.emitted ++ [Signal.onStatus eStatus.sendFailed]) ∧
      (c.m_status = eStatus.recving →
        c.progTimeoutHandler.m_status = eStatus.recvFailed ∧
        c.progTimeoutHandler.emitted = c.emitted ++ [Signal.onStatus eStatus.recvFailed]) ∧
      (c.m_status = eStatus.connecting →
        c.progTimeoutHandler.m_status = eStatus.connFailed ∧
        c.progTimeoutHandler.emitted = c.emitted ++ [Signal.onStatus eStatus.connFailed]) ∧
      (c.m_status = eStatus.ready →
        c.progTimeoutHandler.m_status = eStatus.ready ∧
        c.progTimeoutHandler.emitted =
          c.emitted ++ [Signal.onProgress eProgress.inbox (toUInt32 c.m_bytesInbox)]) ∧
      (c.m_status ≠ eStatus.sending → c.m_status ≠ eStatus.recving →
        c.m_status ≠ eStatus.connecting → c.m_status ≠ eStatus.ready →
        c.progTimeoutHandler = { c with workerCanceled := true })) ∧
    (c.worker.isSome = false → c.progTimeoutHandler = c) := by
  constructor
  · intro hw
    refine ⟨?_, ?_, ?_, ?_, ?_, ?_⟩
    · simp only [Comm.progTimeoutHandler, hw, Comm.setStatus, Comm.emit]
      cases c.m_status <;> simp
    · intro h
      simp [Comm.progTimeoutHandler, hw, Comm.setStatus, Comm.emit, h]
    · intro h
      simp [Comm.progTimeoutHandler, hw, Comm.setStatus, Comm.emit, h]
    · intro h
      simp [Comm.progTimeoutHandler, hw, Comm.setStatus, Comm.emit, h]
    · intro h
      simp [Comm.progTimeoutHandler, hw, Comm.emit, h]
    · intro h1 h2 h3 h4
      simp [Comm.progTimeoutHandler, hw, h1, h2, h3, h4]
  · intro hw
    simp [Comm.progTimeoutHandler, hw]

theorem progTimeout_outcome_witness :
    ((busyLink eStatus.sending).worker.isSome = true ∧
      (busyLink eStatus.sending).m_status = eStatus.sending) ∧
    (busyLink eStatus.sending).progTimeoutHandler.m_status = eStatus.sendFailed ∧
    (busyLink eStatus.sending).progTimeoutHandler.emitted =
      (busyLink eStatus.sending).emitted ++ [Signal.onStatus eStatus.sendFailed] :=
  ⟨by decide,
   ((progTimeout_outcome (busyLink eStatus.sending)).1 (by decide)).2.1 (by decide)⟩

theorem coherent_new {τ : Type} (dev : τ) (commID : Int) : (Comm.new dev commID).Coherent := by
  simp [Comm.Coherent, Comm.new, eStatus.resting]

theorem coherent_setConnInfo {τ : Type} (T : Transport τ) (c : Comm τ) (connString : String)
    (connNum : Int) (connInfo : Nat) (h : c.Coherent) :
    (Comm.setConnInfo T c connString connNum connInfo).2.Coherent := by
  simpa [Comm.Coherent, Comm.setConnInfo, Comm.callSetConnInfoProc, Comm.logCall] using h

theorem coherent_connect {τ : Type} (T : Transport τ) (c : Comm τ) (timeout : Nat)
    (fired : Bool) (h : c.Coherent) : (Comm.connect T c timeout fired).2.Coherent := by
  cases ha : c.m_connAvailable
  · simpa [Comm.connect, ha] using h
  · obtain ⟨hr, -, -⟩ := h
    have hs : c.m_status ≠ eStatus.connecting := by
      intro hc
      rw [hc] at hr
      exact Bool.noConfusion hr
    cases hp : (T.connectProc true c.dev timeout).1 <;>
      cases ht : Comm.timed c.m_enableConnTimeout timeout <;>
      cases fired <;>
      simp [Comm.Coherent, Comm.connect, ha, Comm.runINTime, Comm.callConnectProc,
        Comm.logCall, Comm.setStatus, Comm.emit, hs, hp, ht, eStatus.resting]

theorem coherent_close {τ : Type} (T : Transport τ) (c : Comm τ) (timeout : Nat)
    (h : c.Coherent) : (Comm.close T c timeout).2.Coherent := by
  obtain ⟨hr, h1, -⟩ := h
  cases hl : T.checkConnProc c.dev
  · simp only [Comm.close, Comm.callCheckConnProc, Comm.logCall, hl]
    exact ⟨hr, h1, fun _ hc => Bool.noConfusion hc⟩
  · have hs : c.m_status ≠ eStatus.closing := by
      intro hc
      rw [hc] at hr
      exact Bool.noConfusion hr
    cases hp : (T.closeProc c.dev timeout).1 <;>
      simp [Comm.Coherent, Comm.close, Comm.callCheckConnProc, Comm.callCloseProc,
        Comm.logCall, Comm.setStatus, Comm.emit, hl, hs, hp, eStatus.resting]

theorem coherent_send {τ : Type} (T : Transport τ) (c : Comm τ) (data : QByteArray)
    (timeout : Nat) (async : Bool) (h : c.Coherent) :
    (Comm.send T c data timeout async).2.Coherent := by
  by_cases hs : c.m_status = eStatus.ready
  · cases async
    · rw [send_sync_eq T c data timeout hs]
      obtain ⟨-, -, h2⟩ := h
      cases hp : (T.sendProc c.dev data timeout).1.1 <;>
        simp [Comm.Coherent, eStatus.resting]
      exact h2 hs
    · simpa [Comm.Coherent, Comm.send, Comm.comm_idle, hs] using h
  · simpa [Comm.send, Comm.comm_idle, hs] using h

theorem coherent_recv {τ : Type} (T : Transport τ) (c : Comm τ) (buffer : QByteArray)
    (timeout : Nat) (async : Bool) (h : c.Coherent) :
    (Comm.recv T c buffer timeout async).2.2.Coherent := by
  by_cases hs : c.m_status = eStatus.ready
  · cases async
    · rw [recv_sync_eq T c buffer timeout hs]
      obtain ⟨-, -, h2⟩ := h
      cases hp : (T.recvProc c.dev timeout).1.1 <;>
        simp [Comm.Coherent, eStatus.resting]
      exact h2 hs
    · simpa [Comm.Coherent, Comm.recv, Comm.comm_idle, hs] using h
  · simpa [Comm.recv, Comm.comm_idle, hs] using h

theorem coherent_inbox {τ : Type} (T : Transport τ) (c : Comm τ) (timeout : Nat)
    (async : Bool) (h : c.Coherent) : (Comm.inbox T c timeout async).2.Coherent := by
  by_cases hs : c.m_status = eStatus.ready
  · cases async
    · rw [inbox_sync_eq T c timeout hs]
      exact h
    · simpa [Comm.Coherent, Comm.inbox, Comm.comm_idle, hs] using h
  · simpa [Comm.inbox, Comm.comm_idle, hs] using h

theorem coherent_checkConn {τ : Type} (T : Transport τ) (c : Comm τ) (emergency : Bool)
    (h : c.Coherent) : (Comm.checkConn T c emergency).2.Coherent := by
  obtain ⟨hr, h1, h2⟩ := h
  cases hcl : c.m_isClosed
  · have hs : c.m_status ≠ eStatus.connected := by
      intro hc
      rw [hc] at hr
      exact Bool.noConfusion hr
    cases hl : T.checkConnProc c.dev <;> cases hconn : c.m_isConnected
    · simp only [Comm.checkConn, Comm.callCheckConnProc, Comm.logCall, hcl, hl, hconn]
      refine ⟨hr, fun _ => rfl, fun hrd _ => ?_⟩
      have := h2 hrd hcl
      rw [hconn] at this
      exact this
    · by_cases hst : c.m_status = eStatus.connLost <;>
        simp [Comm.Coherent, Comm.checkConn, Comm.callCheckConnProc, Comm.logCall,
          Comm.setStatus, Comm.emit, hcl, hl, hconn, hst, eStatus.resting]
    · simp [Comm.Coherent, Comm.checkConn, Comm.callCheckConnProc, Comm.logCall,
        Comm.setStatus, Comm.emit, hcl, hl, hconn, hs, eStatus.resting]
    · simp only [Comm.checkConn, Comm.callCheckConnProc, Comm.logCall, hcl, hl, hconn]
      exact ⟨hr, fun hc => by rw [← hconn]; exact absurd (h1 hc) (by rw [hconn]; decide),
        fun _ _ => rfl⟩
  · rw [checkConn_latched T c emergency hcl]
    exact ⟨hr, fun _ => rfl, fun _ hc => Bool.noConfusion (hcl.symm.trans hc)⟩

theorem coherent_reconnect {τ : Type} (T : Transport τ) (c : Comm τ) (h : c.Coherent) :
    (Comm.reconnect T c).2.Coherent := by
  rw [Comm.reconnect]
  apply coherent_checkConn
  cases hl : T.checkConnProc c.dev <;>
    simpa [Comm.Coherent, Comm.callCheckConnProc, Comm.callCloseProc, Comm.callConnectProc,
      Comm.logCall, hl] using h

theorem coherent_applyOp {τ : Type} (T : Transport τ) (c : Comm τ) (op : Op) (h : c.Coherent) :
    (Comm.applyOp T c op).Coherent := by
  cases op with
  | setConnInfo connString connNum connInfo =>
    exact coherent_setConnInfo T c connString connNum connInfo h
  | connect timeout fired => exact coherent_connect T c timeout fired h
  | close timeout => exact coherent_close T c timeout h
  | send data timeout async => exact coherent_send T c data timeout async h
  | recv buffer timeout async => exact coherent_recv T c buffer timeout async h
  | inbox timeout async => exact coherent_inbox T c timeout async h
  | checkConn emergency => exact coherent_checkConn T c emergency h
  | reconnect => exact coherent_reconnect T c h

theorem coherent_runOps {τ : Type} (T : Transport τ) (ops : List Op) (c : Comm τ)
    (h : c.Coherent) : (Comm.runOps T c ops).Coherent := by
  induction ops generalizing c with
  | nil => exact h
  | cons op rest ih => exact ih (Comm.applyOp T c op) (coherent_applyOp T c op h)

theorem ev_setStatus_status {τ : Type} (c : Comm τ) (s : eStatus) :
    (Ev.setStatus c s).m_status = s := by
  unfold Ev.setStatus
  split
  · assumption
  · cases s <;> rfl

theorem ev_setStatus_flag {τ : Type} (c : Comm τ) (s : eStatus) :
    (Ev.setStatus c s).m_isConnected = c.m_isConnected := by
  unfold Ev.setStatus
  split
  · rfl
  · cases s <;> rfl

theorem flagOK_setStatus {τ : Type} (c : Comm τ) (s : eStatus)
    (h : s = eStatus.closed ∨ s = eStatus.connFailed ∨ s = eStatus.connLost →
      c.m_isConnected = false) : (Ev.setStatus c s).FlagOK := by
  unfold Comm.FlagOK
  rw [ev_setStatus_status, ev_setStatus_flag]
  exact h

theorem flagOK_of_eq {τ : Type} (c c1 : Comm τ) (h1 : c1.m_status = c.m_status)
    (h2 : c1.m_isConnected = c.m_isConnected) (h : c.FlagOK) : c1.FlagOK := by
  unfold Comm.FlagOK at *
  rw [h1, h2]
  exact h

theorem flagOK_checkConn {τ : Type} (T : Transport τ) (c : Comm τ) (emergency : Bool)
    (h : c.FlagOK) : (Ev.checkConn T c emergency).2.FlagOK := by
  unfold Ev.checkConn
  split
  · intro _
    rfl
  · simp only [Comm.callCheckConnProc, Comm.logCall]
    split
    · split
      · exact flagOK_setStatus _ _ (by simp)
      · exact flagOK_of_eq c _ rfl rfl h
    · split
      · exact flagOK_setStatus _ _ (fun _ => rfl)
      · exact flagOK_of_eq c _ rfl rfl h

theorem flagOK_handleLostConn {τ : Type} (T : Transport τ) (c : Comm τ) (h : c.FlagOK) :
    (Ev.handleLostConn T c).FlagOK := by
  unfold Ev.handleLostConn
  split
  · exact flagOK_checkConn T c true h
  · exact h

theorem flagOK_lostConns {τ : Type} (T : Transport τ) (mids : List τ) (c : Comm τ)
    (h : c.FlagOK) : (Ev.lostConns T c mids).FlagOK := by
  induction mids generalizing c with
  | nil => exact h
  | cons mid rest ih =>
    exact ih _ (flagOK_handleLostConn T _ (flagOK_of_eq c _ rfl rfl h))

theorem flagOK_connect {τ : Type} (T : Transport τ) (c : Comm τ) (timeout : Nat) (fired : Bool)
    (mids : List τ) (h : c.FlagOK) : (Ev.connect T c timeout fired mids).2.FlagOK := by
  unfold Ev.connect
  split
  · exact h
  · simp only []
    split
    · exact flagOK_setStatus _ _ (by simp)
    · rename_i hc
      exact flagOK_setStatus _ _ (fun _ => by simpa using hc)

theorem flagOK_close {τ : Type} (T : Transport τ) (c : Comm τ) (timeout : Nat)
    (mids : List τ) (h : c.FlagOK) : (Ev.close T c timeout mids).2.FlagOK := by
  unfold Ev.close
  simp only []
  split
  · exact flagOK_of_eq c _ rfl rfl h
  · split
    · rename_i hc
      exact flagOK_setStatus _ _ (fun _ => by simpa using hc)
    · exact flagOK_setStatus _ _ (by simp)

theorem flagOK_sent_or_failed {τ : Type} (b : Bool) (x : Comm τ) :
    (if b = true then Ev.setStatus x eStatus.sent
      else Ev.setStatus x eStatus.sendFailed).FlagOK := by
  split <;> exact flagOK_setStatus _ _ (by simp)

theorem flagOK_recved_or_failed {τ : Type} (b : Bool) (x : Comm τ) :
    (if b = true then Ev.setStatus x eStatus.recved
      else Ev.setStatus x eStatus.recvFailed).FlagOK := by
  split <;> exact flagOK_setStatus _ _ (by simp)

theorem flagOK_doSendProc {τ : Type} (T : Transport τ) (c : Comm τ) (data : QByteArray)
    (timeout : Nat) (mids : List τ) : (Ev.doSendProc T c data timeout mids).2.FlagOK :=
  flagOK_sent_or_failed _ _

theorem flagOK_doRecvProc {τ : Type} (T : Transport τ) (c : Comm τ)
    (timeout : Nat) (mids : List τ) : (Ev.doRecvProc T c timeout mids).2.2.FlagOK :=
  flagOK_recved_or_failed _ _

theorem flagOK_callInboxProc {τ : Type} (T : Transport τ) (c : Comm τ)
    (timeout : Nat) (mids : List τ) (h : c.FlagOK) :
    (Ev.callInboxProc T c timeout mids).2.FlagOK :=
  flagOK_of_eq _ _ rfl rfl
    (flagOK_lostConns T mids _ (flagOK_of_eq c (c.logCall ProcCall.inboxProc) rfl rfl h))

theorem flagOK_inbox_tail {τ : Type} (b : Bool) (x : Comm τ) (h : x.FlagOK) :
    (if b = true then
        Ev.processEvents (x.emit (Signal.onProgress eProgress.inbox (toUInt32 x.m_bytesInbox)))
      else x).FlagOK := by
  split
  · exact flagOK_of_eq x _ rfl rfl h
  · exact h

theorem flagOK_inbox_call {τ : Type} (T : Transport τ) (c : Comm τ) (timeout : Nat)
    (mids : List τ) (h : c.FlagOK) :
    (if Comm.timed c.m_enableRecvTimeout timeout = true then
        ((Ev.callInboxProc T { c with progTimeout := some timeout } timeout mids).1,
          { (Ev.callInboxProc T { c with progTimeout := some timeout } timeout mids).2 with
            progTimeout := none })
      else Ev.callInboxProc T c timeout mids).2.FlagOK := by
  split
  · exact flagOK_of_eq _ _ rfl rfl
      (flagOK_callInboxProc T _ timeout mids (flagOK_of_eq c _ rfl rfl h))
  · exact flagOK_callInboxProc T c timeout mids h

theorem flagOK_doInboxProc {τ : Type} (T : Transport τ) (c : Comm τ)
    (timeout : Nat) (mids : List τ) (h : c.FlagOK) :
    (Ev.doInboxProc T c timeout mids).2.FlagOK :=
  flagOK_inbox_tail _ _
    (flagOK_inbox_call T { c with m_bytesInbox := 0 } timeout mids (flagOK_of_eq c _ rfl rfl h))

theorem flagOK_send {τ : Type} (T : Transport τ) (c : Comm τ) (data : QByteArray)
    (timeout : Nat) (async : Bool) (mids : List τ) (h : c.FlagOK) :
    (Ev.send T c data timeout async mids).2.FlagOK := by
  unfold Ev.send
  split
  · exact h
  · split
    · exact flagOK_of_eq c _ rfl rfl h
    · exact flagOK_doSendProc T c data timeout mids

theorem flagOK_recv {τ : Type} (T : Transport τ) (c : Comm τ) (buffer : QByteArray)
    (timeout : Nat) (async : Bool) (mids : List τ) (h : c.FlagOK) :
    (Ev.recv T c buffer timeout async mids).2.2.FlagOK := by
  unfold Ev.recv
  split
  · exact h
  · split
    · exact flagOK_of_eq c _ rfl rfl h
    · exact flagOK_doRecvProc T c timeout mids

theorem flagOK_inbox {τ : Type} (T : Transport τ) (c : Comm τ)
    (timeout : Nat) (async : Bool) (mids : List τ) (h : c.FlagOK) :
    (Ev.inbox T c timeout async mids).2.FlagOK := by
  unfold Ev.inbox
  split
  · exact h
  · split
    · exact flagOK_of_eq c _ rfl rfl h
    · exact flagOK_doInboxProc T c timeout mids h

theorem flagOK_reconnect {τ : Type} (T : Transport τ) (c : Comm τ) (mids1 mids2 : List τ)
    (h : c.FlagOK) : (Ev.reconnect T c mids1 mids2).2.FlagOK := by
  unfold Ev.reconnect
  apply flagOK_checkConn
  apply flagOK_of_eq _ _ rfl rfl
  apply flagOK_lostConns
  apply flagOK_of_eq _ (Comm.logCall _ ProcCall.connectProc) rfl rfl
  simp only [Comm.callCheckConnProc]
  split
  · apply flagOK_of_eq _ _ rfl rfl
    apply flagOK_lostConns
    exact flagOK_of_eq c _ rfl rfl h
  · exact flagOK_of_eq c _ rfl rfl h

theorem flagOK_poolRun {τ : Type} (c : Comm τ) (h : c.FlagOK) : (Ev.poolRun c).FlagOK := by
  unfold Ev.poolRun
  split
  · exact h
  · intro hs
    simp at hs

theorem flagOK_runJob {τ : Type} (T : Transport τ) (c : Comm τ) (mids : List τ)
    (h : c.FlagOK) : (Ev.runJob T c mids).FlagOK := by
  unfold Ev.runJob
  split
  · exact h
  · exact flagOK_of_eq _ _ rfl rfl (flagOK_doSendProc T _ _ _ mids)
  · exact flagOK_of_eq _ _ rfl rfl
      (flagOK_doInboxProc T _ _ mids (flagOK_of_eq c _ rfl rfl h))
  · exact flagOK_of_eq _ _ rfl rfl (flagOK_doRecvProc T _ _ mids)

theorem flagOK_step {τ : Type} (T : Transport τ) (c : Comm τ) (st : Ev.Step τ)
    (h : c.FlagOK) : (Ev.step T c st).FlagOK := by
  cases st with
  | setConnInfo connString connNum connInfo => exact flagOK_of_eq c _ rfl rfl h
  | connect timeout fired mids => exact flagOK_connect T c timeout fired mids h
  | close timeout mids => exact flagOK_close T c timeout mids h
  | send data timeout async mids => exact flagOK_send T c data timeout async mids h
  | recv buffer timeout async mids => exact flagOK_recv T c buffer timeout async mids h
  | inbox timeout async mids => exact flagOK_inbox T c timeout async mids h
  | checkConn emergency => exact flagOK_checkConn T c emergency h
  | reconnect mids1 mids2 => exact flagOK_reconnect T c mids1 mids2 h
  | poolRun => exact flagOK_poolRun c h
  | processEvents => exact flagOK_of_eq c _ rfl rfl h
  | runJob mids => exact flagOK_runJob T c mids h
  | world dev lost =>
    simp only [Ev.step]
    split
    · exact flagOK_handleLostConn T _ (flagOK_of_eq c _ rfl rfl h)
    · exact flagOK_of_eq c _ rfl rfl h

theorem flagOK_run {τ : Type} (T : Transport τ) (steps : List (Ev.Step τ)) (c : Comm τ)
    (h : c.FlagOK) : (Ev.run T c steps).FlagOK := by
  induction steps generalizing c with
  | nil => exact h
  | cons st rest ih => exact ih (Ev.step T c st) (flagOK_step T c st h)

/-- C21, as stated, fails, with the closed latch set and with it clear.  On a
freshly constructed serial link, after `setConnInfo`, a successful `connect`
(status `ready`, `m_isConnected` true), a synchronous `inbox` during which the
device goes away, `close` (which finds the transport not live and leaves the
status) and `checkConn`, the status is `ready` and `m_isConnected` is false.
On a TCP link, after `connect`, a synchronous `send` during whose wait the peer
hangs up (the `disconnected` signal runs `checkConn(true)`) and whose write was
taken ends with status `ready`, the latch clear and `m_isConnected` false.
After an asynchronous `send` and a `close`, the worker run by the event loop
leaves the status `sent` with `m_isConnected` false. -/
theorem ready_but_not_connected :
    ((Comm.runOps serial freshSerialLink
      [Op.setConnInfo "COM3" 115200 0, Op.connect 1000 false]).m_status = eStatus.ready ∧
     (Comm.runOps serial freshSerialLink
      [Op.setConnInfo "COM3" 115200 0, Op.connect 1000 false]).m_isConnected = true) ∧
    ((Comm.runOps serial freshSerialLink
      [Op.setConnInfo "COM3" 115200 0, Op.connect 1000 false, Op.inbox 1000 false,
        Op.close 1000, Op.checkConn false]).m_status = eStatus.ready ∧
     (Comm.runOps serial freshSerialLink
      [Op.setConnInfo "COM3" 115200 0, Op.connect 1000 false, Op.inbox 1000 false,
        Op.close 1000, Op.checkConn false]).m_isConnected = false) ∧
    ((Ev.run tcp (Comm.new (sockDev loadedSocket) 0)
      [Ev.Step.setConnInfo "127.0.0.1" 45454 0, Ev.Step.connect 1000 false [], Ev.Step.poolRun,
       Ev.Step.processEvents,
       Ev.Step.send [1, 2, 3] 1000 false [sockDev droppedSocket], Ev.Step.poolRun,
       Ev.Step.processEvents]).m_status = eStatus.ready ∧
     (Ev.run tcp (Comm.new (sockDev loadedSocket) 0)
      [Ev.Step.setConnInfo "127.0.0.1" 45454 0, Ev.Step.connect 1000 false [], Ev.Step.poolRun,
       Ev.Step.processEvents,
       Ev.Step.send [1, 2, 3] 1000 false [sockDev droppedSocket], Ev.Step.poolRun,
       Ev.Step.processEvents]).m_isClosed = false ∧
     (Ev.run tcp (Comm.new (sockDev loadedSocket) 0)
      [Ev.Step.setConnInfo "127.0.0.1" 45454 0, Ev.Step.connect 1000 false [], Ev.Step.poolRun,
       Ev.Step.processEvents,
       Ev.Step.send [1, 2, 3] 1000 false [sockDev droppedSocket], Ev.Step.poolRun,
       Ev.Step.processEvents]).m_isConnected = false) ∧
    ((Ev.run tcp (Comm.new (sockDev loadedSocket) 0)
      [Ev.Step.setConnInfo "127.0.0.1" 45454 0, Ev.Step.connect 1000 false [], Ev.Step.poolRun,
       Ev.Step.processEvents,
       Ev.Step.send [1, 2, 3] 1000 true [], Ev.Step.close 1000 [], Ev.Step.runJob []]).m_status = eStatus.sent ∧
     (Ev.run tcp (Comm.new (sockDev loadedSocket) 0)
      [Ev.Step.setConnInfo "127.0.0.1" 45454 0, Ev.Step.connect 1000 false [], Ev.Step.poolRun,
       Ev.Step.processEvents,
       Ev.Step.send [1, 2, 3] 1000 true [], Ev.Step.close 1000 [], Ev.Step.runJob []]).m_isConnected = false) := by
  decide

/-- C21, amended: in every state reached from a freshly constructed link by any
sequence of events (calls of `setConnInfo`, `connect`, `close`, `send`, `recv`,
`inbox`, `checkConn` and `reconnect`, synchronous or asynchronous, with any
transport behaviour and any `disconnected` signal interrupting a socket call;
the pool tasks of the auto-advance, the delivery of queued notifications and
the pending worker running at any point between them; the device changing by
itself, with or without a `disconnected` signal), whenever the status is
`closed`, `connFailed` or `connLost`, `m_isConnected` is false. -/
theorem reachable_down_status_flag_false {τ : Type} (T : Transport τ) (dev : τ) (commID : Int)
    (steps : List (Ev.Step τ)) :
    (Ev.run T (Comm.new dev commID) steps).m_status = eStatus.closed ∨
      (Ev.run T (Comm.new dev commID) steps).m_status = eStatus.connFailed ∨
      (Ev.run T (Comm.new dev commID) steps).m_status = eStatus.connLost →
    (Ev.run T (Comm.new dev commID) steps).m_isConnected = false :=
  flagOK_run T steps (Comm.new dev commID) (fun _ => rfl)

theorem reachable_down_status_flag_false_witness :
    ((Ev.run tcp (Comm.new (sockDev loadedSocket) 0)
      [Ev.Step.setConnInfo "127.0.0.1" 45454 0, Ev.Step.connect 1000 false [], Ev.Step.poolRun,
       Ev.Step.processEvents, Ev.Step.world (sockDev droppedSocket) true]).m_status = eStatus.connLost ∧
     (Ev.run tcp (Comm.new (sockDev loadedSocket) 0)
      [Ev.Step.setConnInfo "127.0.0.1" 45454 0, Ev.Step.connect 1000 false [], Ev.Step.poolRun,
       Ev.Step.processEvents, Ev.Step.world (sockDev droppedSocket) true]).m_isConnected = false) ∧
    ((Ev.run tcp (Comm.new (sockDev loadedSocket) 0)
      [Ev.Step.setConnInfo "127.0.0.1" 45454 0, Ev.Step.connect 1000 false [], Ev.Step.poolRun,
       Ev.Step.processEvents, Ev.Step.close 1000 []]).m_status = eStatus.closed ∧
     (Ev.run tcp (Comm.new (sockDev loadedSocket) 0)
      [Ev.Step.setConnInfo "127.0.0.1" 45454 0, Ev.Step.connect 1000 false [], Ev.Step.poolRun,
       Ev.Step.processEvents, Ev.Step.close 1000 []]).m_isConnected = false) :=
  ⟨⟨by decide,
    reachable_down_status_flag_false tcp (sockDev loadedSocket) 0 _ (Or.inr (Or.inr (by decide)))⟩,
   ⟨by decide,
    reachable_down_status_flag_false tcp (sockDev loadedSocket) 0 _ (Or.inl (by decide))⟩⟩

theorem removeExcess_eq_drop {F : Type} (n : Nat) (pts : List (QPointF F)) :
    CCloudPoints.removeExcess n pts = pts.drop n := by
  induction n generalizing pts with
  | zero => rfl
  | succ n ih =>
    rw [CCloudPoints.removeExcess, ih]
    cases pts <;> simp

/-- C22: on a buffer holding at most `m_maxPoints` points (a capacity of at
least one), `setPoint` leaves the old points, without the oldest one when the
buffer was full, in their order, followed by the projection of the new sample;
so the last element is that projection, the size is the smaller of the old size
plus one and the capacity, and it does not exceed the capacity; the capacity is
unchanged. -/
theorem setPoint_bounded_fifo {F : Type} (A : FloatApi F) (b : CCloudPoints F)
    (angle distance : F) (hcap : 1 ≤ b.m_maxPoints)
    (hsz : (b.m_points.length : Int) ≤ b.m_maxPoints) :
    (CCloudPoints.setPoint A b angle distance).m_points =
      (if (b.m_points.length : Int) = b.m_maxPoints then b.m_points.drop 1 else b.m_points) ++
        [(QPointF.mk (A.mul (A.mul distance b.m_scale) (A.cos (A.toRadian angle)))
          (A.mul (A.mul distance b.m_scale) (A.sin (A.toRadian angle))))] ∧
    (CCloudPoints.setPoint A b angle distance).m_points.getLast? =
      some (QPointF.mk (A.mul (A.mul distance b.m_scale) (A.cos (A.toRadian angle)))
          (A.mul (A.mul distance b.m_scale) (A.sin (A.toRadian angle)))) ∧
    ((CCloudPoints.setPoint A b angle distance).m_points.length : Int) =
      min ((b.m_points.length : Int) + 1) b.m_maxPoints ∧
    (CCloudPoints.setPoint A b angle distance).getPointCount ≤ b.m_maxPoints ∧
    (CCloudPoints.setPoint A b angle distance).m_maxPoints = b.m_maxPoints := by
  have hpts : (CCloudPoints.setPoint A b angle distance).m_points =
      (if (b.m_points.length : Int) = b.m_maxPoints then b.m_points.drop 1 else b.m_points) ++
        [(QPointF.mk (A.mul (A.mul distance b.m_scale) (A.cos (A.toRadian angle)))
          (A.mul (A.mul distance b.m_scale) (A.sin (A.toRadian angle))))] := by
    have hgen : (CCloudPoints.setPoint A b angle distance).m_points =
        (b.m_points ++ [(QPointF.mk (A.mul (A.mul distance b.m_scale) (A.cos (A.toRadian angle)))
          (A.mul (A.mul distance b.m_scale) (A.sin (A.toRadian angle))))]).drop
          ((b.m_points.length : Int) + 1 - b.m_maxPoints).toNat := by
      simp only [CCloudPoints.setPoint, List.length_append, List.length_singleton,
        Nat.cast_add, Nat.cast_one, removeExcess_eq_drop]
      split
      · rfl
      · rename_i hex
        have h0 : ((b.m_points.length : Int) + 1 - b.m_maxPoints).toNat = 0 := by omega
        rw [h0]
        rfl
    rw [hgen]
    by_cases hfull : (b.m_points.length : Int) = b.m_maxPoints
    · have h1 : ((b.m_points.length : Int) + 1 - b.m_maxPoints).toNat = 1 := by omega
      rw [h1, if_pos hfull]
      cases hb : b.m_points with
      | nil =>
        rw [hb] at hfull
        simp at hfull
        omega
      | cons p ps => rfl
    · have h0 : ((b.m_points.length : Int) + 1 - b.m_maxPoints).toNat = 0 := by omega
      rw [h0, if_neg hfull]
      rfl
  have hmax : (CCloudPoints.setPoint A b angle distance).m_maxPoints = b.m_maxPoints := by
    simp only [CCloudPoints.setPoint]
    split <;> rfl
  refine ⟨hpts, ?_, ?_, ?_, hmax⟩
  · rw [hpts]
    simp
  · rw [hpts]
    by_cases hfull : (b.m_points.length : Int) = b.m_maxPoints
    · simp only [hfull, if_true, List.length_append, List.length_drop, List.length_singleton]
      omega
    · simp only [hfull, if_false, List.length_append, List.length_singleton]
      omega
  · rw [CCloudPoints.getPointCount, hpts]
    by_cases hfull : (b.m_points.length : Int) = b.m_maxPoints
    · simp only [hfull, if_true, List.length_append, List.length_drop, List.length_singleton]
      omega
    · simp only [hfull, if_false, List.length_append, List.length_singleton]
      omega

theorem setPoint_bounded_fifo_witness :
    ((1 : Int) ≤ fullBuffer.m_maxPoints ∧
      (fullBuffer.m_points.length : Int) ≤ fullBuffer.m_maxPoints) ∧
    (CCloudPoints.setPoint intFloat fullBuffer 4 5).m_points =
      [{ x := 2, y := 2 }, { x := 3, y := 3 }, { x := 20, y := 25 }] :=
  ⟨by decide,
   (setPoint_bounded_fifo intFloat fullBuffer 4 5 (by decide) (by decide)).1⟩

end LumoComm
